import Mathlib

/-!
# openmeteo-exporter: the poll-fetch-decode-publish loop of `main.go`

A shallow embedding of `main.go`.

* `float64` values are the rationals they denote (`Float64 := ℚ`); infinities and NaN are
  left out. The program copies them, compares two of them with zero, and computes with
  them in `Duration.Seconds`, where every conversion and operation is rounded to the
  nearest float64, ties to even (`float64Round`).
* `time.Time` is modelled as an integer count of nanoseconds since
  `0001-01-01T00:00:00Z`, the zero value of `time.Time`; `time.Duration` is an `int64`
  count of nanoseconds, with wrap-around made explicit.
* Gauges are a total map from the gauge identifiers declared in `metrics` to values.
-/

namespace OpenMeteo

/-- The Go type `float64`: a finite value, held as the rational it denotes. -/
abbrev Float64 := ℚ

/-- Rounding of a rational to the nearest integer, ties to the even one. -/
def roundHalfEven (y : ℚ) : Int :=
  let f := ⌊y⌋
  if y - f < 1 / 2 then f
  else if 1 / 2 < y - f then f + 1
  else if f % 2 = 0 then f else f + 1

/-- The float64 nearest to `x`, ties to even (the rounding of every float64 conversion
and operation): with `2^e ≤ |x| < 2^(e+1)` the result is the multiple of `2^(e-52)`
nearest to `x`, a significand of 53 bits, and of `2^(-1074)` below the normal range.
Overflow to infinity (`|x|` near `2^1024`) is not modelled. -/
def float64Round (x : ℚ) : Float64 :=
  if x = 0 then 0
  else
    let e := Int.log 2 |x|
    let p := max e (-1022) - 52
    (roundHalfEven (x / 2 ^ p) : ℚ) * 2 ^ p

/-! ## Package `time` (the part used by `main`) -/

namespace time

/-- The instant type `time.Time`: nanoseconds since `0001-01-01T00:00:00Z`; the zero value
`Time{}` is `0`. -/
abbrev Time := Int

/-- The type `time.Duration`: an `int64` nanosecond count. -/
abbrev Duration := Int

/-- The constant `time.Second`. -/
def Second : Duration := 1000000000

/-- The constant `minDuration`, `-1 << 63`. -/
def minDuration : Duration := -9223372036854775808

/-- The constant `maxDuration`, `1<<63 - 1`. -/
def maxDuration : Duration := 9223372036854775807

/-- Two's-complement wrap-around of `int64` arithmetic. -/
def wrapInt64 (x : Int) : Int :=
  (x + 9223372036854775808) % 18446744073709551616 - 9223372036854775808

/-- The method `t.sec()`: whole seconds since year 1. -/
def Time.sec (t : Time) : Int := t / Second

/-- The method `t.nsec()`: nanoseconds within the second, in `[0, 999999999]`. -/
def Time.nsec (t : Time) : Int := t % Second

/-- The method `t.Add(d)`. -/
def Time.Add (t : Time) (d : Duration) : Time := t + d

/-- The method `t.Sub(u)` for instants without a monotonic clock reading:
`d := Duration(t.sec()-u.sec())*Second + Duration(t.nsec()-u.nsec())` in `int64`
arithmetic, returned when `u.Add(d).Equal(t)`, and replaced by `minDuration` or
`maxDuration` when the difference overflowed. -/
def Time.Sub (t u : Time) : Duration :=
  let d := wrapInt64 (wrapInt64 (wrapInt64 (t.sec - u.sec) * Second) + wrapInt64 (t.nsec - u.nsec))
  if u.Add d = t then d
  else if t < u then minDuration
  else maxDuration

/-- The function `time.Since(t)`, which is `Now().Sub(t)`; the reading of the clock is the
argument `now`. -/
def Since (now t : Time) : Duration := Time.Sub now t

/-- The method `d.Seconds()`: `sec := d / Second; nsec := d % Second;
float64(sec) + float64(nsec)/1e9`, with Go's truncating integer division and with the
two conversions, the division and the sum each rounded to float64. -/
def Duration.Seconds (d : Duration) : Float64 :=
  let sec := Int.tdiv d Second
  let nsec := Int.tmod d Second
  float64Round (float64Round (sec : ℚ) + float64Round (float64Round (nsec : ℚ) / 1000000000))

/-- Saturation of an exact nanosecond difference to the range of `Duration`. -/
def clampDuration (x : Int) : Duration :=
  if x < minDuration then minDuration else if maxDuration < x then maxDuration else x

end time

/-! ## The response model (`type response struct`, lines 109-153) -/

/-- The anonymous struct of the field `Current`; `T` is the type held by the
timestamp field (`time.Time` once decoded). -/
structure currentResponse (T : Type) where
  Time : T
  Temperature2M : Float64
  RelativeHumidity2M : Float64
  ApparentTemperature : Float64
  Precipitation : Float64
  Rain : Float64
  Showers : Float64
  Snowfall : Float64
  WeatherCode : Float64
  CloudCover : Float64
  PressureMsl : Float64
  SurfacePressure : Float64
  WindSpeed10M : Float64
  WindDirection10M : Float64
  WindGusts10m : Float64

/-- The anonymous struct of the field `Daily`: one slice per variable. -/
structure dailyResponse (T : Type) where
  Time : List T
  WeatherCode : List Float64
  Temperature2MMax : List Float64
  Temperature2MMin : List Float64
  ApparentTemperatureMax : List Float64
  ApparentTemperatureMin : List Float64
  Sunrise : List T
  Sunset : List T
  DaylightDuraton : List Float64
  SunshineDuration : List Float64
  UVIndexMax : List Float64
  UVIndexClearSkyMax : List Float64
  PrecipitationSum : List Float64
  RainSum : List Float64
  ShowersSum : List Float64
  SnowfallSum : List Float64
  PrecipitationHours : List Float64
  PrecipitationProbabilityMax : List Float64
  WindSpeed10MMax : List Float64
  WindGusts10MMax : List Float64
  WindDirection10MDominant : List Float64
  ShortwaveRadiationSum : List Float64
  ET0FAOEvapotranspiration : List Float64

/-- The struct `response`. -/
structure response (T : Type) where
  Elevation : Float64
  Current : currentResponse T
  Daily : dailyResponse T

/-! ## The gauges (`currentMetrics`, `dailyMetrics`, `metrics`, lines 155-364) -/

/-- The fields of `type currentMetrics struct`. -/
inductive currentMetrics
  | timeSinceUpdate
  | temperature2M
  | relativeHumidity2M
  | apparentTemperature
  | precipitation
  | rain
  | showers
  | snowfall
  | weatherCode
  | cloudCover
  | pressureMsl
  | surfacePressure
  | windSpeed10M
  | windDirection10M
  | windGusts10m
  deriving DecidableEq, Repr

/-- The fields of `type dailyMetrics struct`. -/
inductive dailyMetrics
  | timeSinceUpdate
  | weatherCode
  | temperature2MMax
  | temperature2MMin
  | apparentTemperatureMax
  | apparentTemperatureMin
  | sunrise
  | sunset
  | daylightDuraton
  | sunshineDuration
  | uvIndexMax
  | uvIndexClearSkyMax
  | precipitationSum
  | rainSum
  | showersSum
  | snowfallSum
  | precipitationHours
  | precipitationProbabilityMax
  | windSpeed10MMax
  | windGusts10MMax
  | windDirection10MDominant
  | shortwaveRadiationSum
  | et0FAOEvapotranspiration
  deriving DecidableEq, Repr

/-- The gauges held by the variable `metrics`: `metrics.elevation`, `metrics.current.x`
and `metrics.daily.x`. -/
inductive Gauge
  | elevation
  | current (f : currentMetrics)
  | daily (f : dailyMetrics)
  deriving DecidableEq, Repr

/-- The values currently held by the gauges. -/
abbrev GaugeValues := Gauge → Float64

/-- The value of every gauge after `prometheus.NewGauge`. -/
def GaugeValues.initial : GaugeValues := fun _ => 0

/-- The method `g.Set(v)` of a gauge: overwrite one gauge, leave the others. -/
def GaugeValues.Set (vals : GaugeValues) (g : Gauge) (v : Float64) : GaugeValues :=
  fun h => if h = g then v else vals h

/-! ## The publish step (lines 58-98) -/

/-- What the right-hand sides of the publish step read: the decoded response and the two
readings of the clock made by the two calls of `time.Since`. -/
structure PublishEnv where
  response : response time.Time
  nowCurrent : time.Time
  nowDaily : time.Time

/-- The index expression `xs[0]`; `none` is the run-time panic "index out of range". -/
def index0 {α : Type} : List α → Option α
  | [] => none
  | x :: _ => some x

/-- One statement `metrics.g.Set(e)`: the gauge and the argument expression, which is
evaluated before `Set` is called and may panic. -/
abbrev SetStmt := Gauge × (PublishEnv → Option Float64)

/-- The statements of lines 58-98, in source order. The two lines for `sunrise` and
`sunset` are comments in the source and are absent here. -/
def publishStmts : List SetStmt := [
  (.elevation, fun e => some e.response.Elevation),
  (.current .timeSinceUpdate,
    fun e => some (time.Duration.Seconds (time.Since e.nowCurrent e.response.Current.Time))),
  (.current .temperature2M, fun e => some e.response.Current.Temperature2M),
  (.current .relativeHumidity2M, fun e => some e.response.Current.RelativeHumidity2M),
  (.current .apparentTemperature, fun e => some e.response.Current.ApparentTemperature),
  (.current .precipitation, fun e => some e.response.Current.Precipitation),
  (.current .rain, fun e => some e.response.Current.Rain),
  (.current .showers, fun e => some e.response.Current.Showers),
  (.current .snowfall, fun e => some e.response.Current.Snowfall),
  (.current .weatherCode, fun e => some e.response.Current.WeatherCode),
  (.current .cloudCover, fun e => some e.response.Current.CloudCover),
  (.current .pressureMsl, fun e => some e.response.Current.PressureMsl),
  (.current .surfacePressure, fun e => some e.response.Current.SurfacePressure),
  (.current .windSpeed10M, fun e => some e.response.Current.WindSpeed10M),
  (.current .windDirection10M, fun e => some e.response.Current.WindDirection10M),
  (.current .windGusts10m, fun e => some e.response.Current.WindGusts10m),
  (.daily .timeSinceUpdate,
    fun e => (index0 e.response.Daily.Time).map
      (fun t => time.Duration.Seconds (time.Since e.nowDaily t))),
  (.daily .weatherCode, fun e => index0 e.response.Daily.WeatherCode),
  (.daily .temperature2MMax, fun e => index0 e.response.Daily.Temperature2MMax),
  (.daily .temperature2MMin, fun e => index0 e.response.Daily.Temperature2MMin),
  (.daily .apparentTemperatureMax, fun e => index0 e.response.Daily.ApparentTemperatureMax),
  (.daily .apparentTemperatureMin, fun e => index0 e.response.Daily.ApparentTemperatureMin),
  (.daily .daylightDuraton, fun e => index0 e.response.Daily.DaylightDuraton),
  (.daily .sunshineDuration, fun e => index0 e.response.Daily.SunshineDuration),
  (.daily .uvIndexMax, fun e => index0 e.response.Daily.UVIndexMax),
  (.daily .uvIndexClearSkyMax, fun e => index0 e.response.Daily.UVIndexClearSkyMax),
  (.daily .precipitationSum, fun e => index0 e.response.Daily.PrecipitationSum),
  (.daily .rainSum, fun e => index0 e.response.Daily.RainSum),
  (.daily .showersSum, fun e => index0 e.response.Daily.ShowersSum),
  (.daily .snowfallSum, fun e => index0 e.response.Daily.SnowfallSum),
  (.daily .precipitationHours, fun e => index0 e.response.Daily.PrecipitationHours),
  (.daily .precipitationProbabilityMax,
    fun e => index0 e.response.Daily.PrecipitationProbabilityMax),
  (.daily .windSpeed10MMax, fun e => index0 e.response.Daily.WindSpeed10MMax),
  (.daily .windGusts10MMax, fun e => index0 e.response.Daily.WindGusts10MMax),
  (.daily .windDirection10MDominant, fun e => index0 e.response.Daily.WindDirection10MDominant),
  (.daily .shortwaveRadiationSum, fun e => index0 e.response.Daily.ShortwaveRadiationSum),
  (.daily .et0FAOEvapotranspiration, fun e => index0 e.response.Daily.ET0FAOEvapotranspiration)]

/-- How a run of the publish statements ends: all of them executed, or a panic at one of
them; either way with the gauge values written so far. -/
inductive PublishResult
  | done (vals : GaugeValues)
  | panicked (vals : GaugeValues)

/-- The gauge values at the end of a run of the publish statements. -/
def PublishResult.vals : PublishResult → GaugeValues
  | .done v => v
  | .panicked v => v

/-- Sequential execution of `Set` statements; a panic in an argument expression stops the
run before the gauge of that statement is written. -/
def runStmts (e : PublishEnv) : List SetStmt → GaugeValues → PublishResult
  | [], vals => .done vals
  | (g, rhs) :: rest, vals =>
    match rhs e with
    | none => .panicked vals
    | some v => runStmts e rest (vals.Set g v)

/-- The publish step of one cycle, lines 58-98. -/
def publish (vals : GaugeValues) (e : PublishEnv) : PublishResult :=
  runStmts e publishStmts vals

/-- The lengths of the daily slices that the publish step indexes (all of them except
`Sunrise` and `Sunset`). -/
def consumedDailyLengths {T : Type} (d : dailyResponse T) : List Nat := [
  d.Time.length, d.WeatherCode.length, d.Temperature2MMax.length, d.Temperature2MMin.length,
  d.ApparentTemperatureMax.length, d.ApparentTemperatureMin.length, d.DaylightDuraton.length,
  d.SunshineDuration.length, d.UVIndexMax.length, d.UVIndexClearSkyMax.length,
  d.PrecipitationSum.length, d.RainSum.length, d.ShowersSum.length, d.SnowfallSum.length,
  d.PrecipitationHours.length, d.PrecipitationProbabilityMax.length, d.WindSpeed10MMax.length,
  d.WindGusts10MMax.length, d.WindDirection10MDominant.length, d.ShortwaveRadiationSum.length,
  d.ET0FAOEvapotranspiration.length]

/-! ## Package `time`: `Time.UnmarshalJSON` (used by `json.Decoder.Decode` for the
timestamp fields)

The input of the parsing functions is the byte string of the Go source, held as a list of
characters; every accepted input consists of ASCII characters only, for which bytes and
characters coincide. The result is the instant alone: the location of the parsed time is
not kept. -/

namespace time

/-- The function `isDigit(s, i)`. -/
def isDigit (s : List Char) (i : Nat) : Bool :=
  match s.drop i with
  | [] => false
  | c :: _ => decide ('0' ≤ c) && decide (c ≤ '9')

/-- The slice expression `s[i:j]`. -/
def slice (s : List Char) (i j : Nat) : List Char := (s.drop i).take (j - i)

/-- The value of a run of decimal digits, `x = x*10 + int(c) - '0'` for each byte. -/
def digitsValue (s : List Char) : Nat :=
  s.foldl (fun x c => x * 10 + (c.toNat - 48)) 0

/-- The closure `parseUint` of `parseRFC3339`: `none` stands for `ok = false`. -/
def parseUint (s : List Char) (min max : Nat) : Option Nat :=
  if s.all (fun c => decide ('0' ≤ c) && decide (c ≤ '9')) then
    let x := digitsValue s
    if x < min ∨ max < x then none else some x
  else none

/-- The function `isLeap`. -/
def isLeap (year : Int) : Bool :=
  decide (year % 4 = 0) && (decide (year % 100 ≠ 0) || decide (year % 400 = 0))

/-- The table `daysBefore`: days in a non-leap year before the month with index `m`
(January is 0). -/
def daysBefore : List Nat := [0, 31, 59, 90, 120, 151, 181, 212, 243, 273, 304, 334, 365]

/-- The function `daysIn(m, year)`, for a month `1 ≤ m ≤ 12`. -/
def daysIn (m : Nat) (year : Int) : Nat :=
  if m = 2 ∧ isLeap year = true then 29
  else daysBefore.getD m 0 - daysBefore.getD (m - 1) 0

/-- Days from `0001-01-01` to January 1 of `year` in the proleptic Gregorian calendar
(the function `daysSinceEpoch`, taken relative to year 1). -/
def daysSinceYear1 (year : Int) : Int :=
  let y := year - 1
  365 * y + y / 4 - y / 100 + y / 400

/-- The function `Date(year, month, day, hour, min, sec, nsec, UTC)` for arguments that
are already in range, which its callers below have checked, so that the normalisation
steps of `Date` are the identity. -/
def Date (year : Int) (month day hour min sec nsec : Nat) : Time :=
  let d : Int := daysSinceYear1 year + daysBefore.getD (month - 1) 0
    + (if isLeap year = true ∧ 3 ≤ month then 1 else 0) + ((day : Int) - 1)
  (d * 86400 + hour * 3600 + min * 60 + sec) * 1000000000 + nsec

/-- The function `commaOrPeriod`. -/
def commaOrPeriod (c : Char) : Bool := c == '.' || c == ','

/-- The function `parseNanoseconds(value, nbytes)` for `value[0]` a separator and
`value[1:nbytes]` decimal digits, as its callers below have checked: the digits after the
ninth are dropped and the rest is scaled to nanoseconds. -/
def parseNanoseconds (value : List Char) (nbytes : Nat) : Nat :=
  let nbytes := if nbytes > 10 then 10 else nbytes
  digitsValue (slice value 1 nbytes) * 10 ^ (10 - nbytes)

/-- The loop `n := 2; for ; n < len(s) && isDigit(s, n); n++ {}`. -/
def fractionEnd (s : List Char) : Nat :=
  2 + ((s.drop 2).takeWhile (fun c => decide ('0' ≤ c) && decide (c ≤ '9'))).length

/-- The time-zone part of `parseRFC3339`: the offset in seconds for what is left of `s`
after the seconds and their fraction, `Z` or a sign with `hh:mm`. -/
def parseRFC3339Zone (s : List Char) : Option Int :=
  if s = ['Z'] then some 0
  else if s.length ≠ 6 then none
  else
    (parseUint (slice s 1 3) 0 23).bind fun hr =>
    (parseUint (slice s 4 6) 0 59).bind fun mm =>
    if !((s.head? == some '-' || s.head? == some '+') && (s.drop 3).head? == some ':')
    then none
    else
      let zoneOffset : Int := (hr * 60 + mm) * 60
      some (if s.head? == some '-' then -zoneOffset else zoneOffset)

/-- The date and time part of `parseRFC3339`: the six numbers of `s[0:19]` and the check
of the separators; `none` stands for `ok = false`. -/
def parseRFC3339Fields (s : List Char) : Option (Int × Nat × Nat × Nat × Nat × Nat) :=
  (parseUint (slice s 0 4) 0 9999).bind fun year =>
  (parseUint (slice s 5 7) 1 12).bind fun month =>
  (parseUint (slice s 8 10) 1 (daysIn month year)).bind fun day =>
  (parseUint (slice s 11 13) 0 23).bind fun hour =>
  (parseUint (slice s 14 16) 0 59).bind fun min =>
  (parseUint (slice s 17 19) 0 59).bind fun sec =>
  if !((s.drop 4).head? == some '-' && (s.drop 7).head? == some '-' &&
      (s.drop 10).head? == some 'T' && (s.drop 13).head? == some ':' &&
      (s.drop 16).head? == some ':') then none
  else some (year, month, day, hour, min, sec)

/-- The function `parseRFC3339(s, local)`; `none` stands for `ok = false`. -/
def parseRFC3339 (s : List Char) : Option Time :=
  if s.length < 19 then none
  else
    (parseRFC3339Fields s).bind fun f =>
    let s := s.drop 19
    let frac := decide (2 ≤ s.length) && s.head? == some '.' && isDigit s 1
    let nsec := if frac then parseNanoseconds s (fractionEnd s) else 0
    let s := if frac then s.drop (fractionEnd s) else s
    let t := Date f.1 f.2.1 f.2.2.1 f.2.2.2.1 f.2.2.2.2.1 f.2.2.2.2.2 nsec
    (parseRFC3339Zone s).bind fun zoneOffset =>
    some (t - zoneOffset * 1000000000)

/-- The function `skip(value, pre)` for a literal text without spaces. -/
def skip : List Char → List Char → Option (List Char)
  | value, [] => some value
  | [], _ :: _ => none
  | v :: value, p :: pre => if v ≠ p then none else skip value pre

/-- The function `getnum(s, fixed)`: a number of one or two digits, of exactly two when
`fixed`. -/
def getnum (s : List Char) (fixed : Bool) : Option (Nat × List Char) :=
  if !isDigit s 0 then none
  else if !isDigit s 1 then
    if fixed then none else some (digitsValue (s.take 1), s.drop 1)
  else some (digitsValue (s.take 2), s.drop 2)

/-- The time-zone element `Z07:00` of `Parse` (`stdISO8601ColonTZ`): the offset in seconds
and the rest of the value. -/
def parseZone (value : List Char) : Option (Int × List Char) :=
  if value.head? == some 'Z' then some (0, value.drop 1)
  else if value.length < 6 then none
  else if (value.drop 3).head? != some ':' then none
  else
    (getnum (slice value 1 3) true).bind fun hr =>
    (getnum (slice value 4 6) true).bind fun mm =>
    if hr.1 > 24 ∨ mm.1 > 60 then none
    else
      let zoneOffset : Int := (hr.1 * 60 + mm.1) * 60
      if value.head? == some '+' then some (zoneOffset, value.drop 6)
      else if value.head? == some '-' then some (-zoneOffset, value.drop 6)
      else none

/-- The first three chunks of `Parse(RFC3339, value)`: `stdLongYear`, `-`,
`stdZeroMonth`, `-`, `stdZeroDay`; the year, the month, the day and the rest of the
value. The day is checked against the month after the whole value is read. -/
def parseLayoutDate (value : List Char) : Option (Int × Nat × Nat × List Char) :=
  if value.length < 4 || !isDigit value 0 then none
  else if !(value.take 4).all (fun c => decide ('0' ≤ c) && decide (c ≤ '9')) then none
  else
    let year : Int := digitsValue (value.take 4)
    (skip (value.drop 4) ['-']).bind fun value =>
    (getnum value true).bind fun month =>
    if month.1 ≤ 0 ∨ 12 < month.1 then none
    else
      (skip month.2 ['-']).bind fun value =>
      (getnum value true).bind fun day =>
      some (year, month.1, day.1, day.2)

/-- The next three chunks of `Parse(RFC3339, value)`: `T`, `stdHour`, `:`,
`stdZeroMinute`, `:`, `stdZeroSecond`; the hour, the minute, the second and the rest of
the value. -/
def parseLayoutClock (value : List Char) : Option (Nat × Nat × Nat × List Char) :=
  (skip value ['T']).bind fun value =>
  (getnum value false).bind fun hour =>
  if 24 ≤ hour.1 then none
  else
    (skip hour.2 [':']).bind fun value =>
    (getnum value true).bind fun min =>
    if 60 ≤ min.1 then none
    else
      (skip min.2 [':']).bind fun value =>
      (getnum value true).bind fun sec =>
      if 60 ≤ sec.1 then none
      else some (hour.1, min.1, sec.1, sec.2)

/-- The fraction of a second that `Parse` accepts after `stdZeroSecond` although the
layout has none: the nanoseconds and the rest of the value. -/
def parseLayoutFraction (value : List Char) : Nat × List Char :=
  if decide (2 ≤ value.length) && (value.head?.map commaOrPeriod).getD false
      && isDigit value 1 then
    (parseNanoseconds value (fractionEnd value), value.drop (fractionEnd value))
  else (0, value)

/-- The function `Parse(RFC3339, value)`, that is `parse` unfolded along the chunks of
the layout `2006-01-02T15:04:05Z07:00`: the date, the clock, an optional fraction of a
second, `stdISO8601ColonTZ`, the end of the value, and the check of the day of the
month. -/
def ParseRFC3339Layout (value : List Char) : Option Time :=
  (parseLayoutDate value).bind fun date =>
  (parseLayoutClock date.2.2.2).bind fun clock =>
  let frac := parseLayoutFraction clock.2.2.2
  (parseZone frac.2).bind fun zone =>
  if zone.2 ≠ [] then none
  else if date.2.2.1 < 1 ∨ daysIn date.2.1 date.1 < date.2.2.1 then none
  else some (Date date.1 date.2.1 date.2.2.1 clock.1 clock.2.1 clock.2.2.1 frac.1
    - zone.1 * 1000000000)

/-- The function `parseStrictRFC3339(b)`: the fast path `parseRFC3339`, and when that
fails `Parse(RFC3339, b)`, whose result is returned as it is (the stricter checks that
follow in the source are behind `case true: return t, nil`). -/
def parseStrictRFC3339 (b : List Char) : Option Time :=
  match parseRFC3339 b with
  | some t => some t
  | none => ParseRFC3339Layout b

/-- The method `(*Time).UnmarshalJSON(data)` applied to a field that holds `t`: the new
value of the field, or `none` for an error. The literal `null` leaves the field as it
is; anything else has to be a quoted RFC 3339 time. -/
def Time.UnmarshalJSON (t : Time) (data : String) : Option Time :=
  if data = "null" then some t
  else
    let data := data.toList
    if data.length < 2 || data.head? != some '"' || data.getLast? != some '"' then none
    else parseStrictRFC3339 (slice data 1 (data.length - 1))

end time

/-! ## Decoding the body (lines 52-56) -/

/-- A JSON value at a position of type `time.Time`, as the raw text of the value; a key
that is absent from the document is held as `null`, which decodes alike. -/
abbrev RawTime := String

/-- Decoding of a slice of timestamps, each element starting from the zero time. -/
def decodeTimes : List RawTime → Option (List time.Time)
  | [] => some []
  | tok :: rest =>
    (time.Time.UnmarshalJSON 0 tok).bind fun t =>
    (decodeTimes rest).bind fun ts => some (t :: ts)

/-- The response body as `json.Decoder.Decode` sees it. -/
inductive Body
  /-- A body for which `Decode` fails before or apart from the timestamp fields:
  not JSON, a value of the wrong JSON type, a number outside of `float64`. -/
  | undecodable
  /-- A JSON document of the shape of `response`, with numbers already read and the
  values of the timestamp fields kept as text; keys without a field are dropped. -/
  | document (doc : response RawTime)

/-- The call `dec.Decode(&response)` on a fresh `response`: the numbers are stored, the
timestamps go through `Time.UnmarshalJSON`, and an error of any of them is the
error of `Decode`. -/
def Decode : Body → Option (response time.Time)
  | .undecodable => none
  | .document doc =>
    (time.Time.UnmarshalJSON 0 doc.Current.Time).bind fun ct =>
    (decodeTimes doc.Daily.Time).bind fun dt =>
    (decodeTimes doc.Daily.Sunrise).bind fun sr =>
    (decodeTimes doc.Daily.Sunset).bind fun ss =>
    some {
      Elevation := doc.Elevation
      Current := { doc.Current with Time := ct }
      Daily := { doc.Daily with Time := dt, Sunrise := sr, Sunset := ss } }

/-! ## The poller (`func main`, lines 21-107) -/

/-- The signals passed to `signal.Notify`: `os.Interrupt` and `syscall.SIGTERM`. -/
inductive Signal
  | Interrupt
  | SIGTERM
  deriving DecidableEq, Repr

/-- What lines 44-51 of one iteration produce. -/
inductive FetchResult
  /-- The call `http.NewRequestWithContext` returned an error. -/
  | requestError
  /-- The call `http.DefaultClient.Do` returned an error. -/
  | transportError
  /-- The call `http.DefaultClient.Do` returned a response with this body. -/
  | body (b : Body)

/-- The control points of `main`. `Fatal` is the exit of `log.Fatalf`, `Panicked` the
run-time panic of an index expression, `Cancelled` the `return` of line 103, and
`Killed` the default action of a signal that arrives before `signal.Notify`. -/
inductive Phase
  | Idle
  | Fetching
  | Decoding (b : Body)
  | Publishing (r : response time.Time)
  | Waiting
  | Cancelled
  | Fatal (msg : String)
  | Panicked
  | Killed

/-- The exit status of the process at a terminal control point: `log.Fatalf` exits with
1, a panic with 2, a return from `main` with 0. -/
def Phase.exitCode : Phase → Option Nat
  | .Cancelled => some 0
  | .Fatal _ => some 1
  | .Panicked => some 2
  | _ => none

/-- The state of the process: the control point, the gauge values, whether `ctx` is done
(`cancel` has been called), the content of the channel `sigChan` of capacity 1, and the
number of iterations of the `for` loop that have attempted a request. -/
structure Poller where
  phase : Phase
  vals : GaugeValues
  ctxDone : Bool
  sigChan : List Signal
  requests : Nat

/-- The state at the entry of `main`, after `init` has registered the gauges. -/
def Poller.init : Poller :=
  { phase := .Idle, vals := GaugeValues.initial, ctxDone := false, sigChan := [],
    requests := 0 }

/-- What the environment contributes to one step. -/
inductive Event
  /-- The call `flag.Parse()` has stored these values (lines 22-41). -/
  | flags (latitude longitude : Float64)
  /-- The request has been built and sent (lines 44-51). -/
  | fetched (r : FetchResult)
  /-- The body is decoded (lines 52-56). -/
  | decode
  /-- The publish step runs, with the two readings of the clock (lines 58-98). -/
  | publish (nowCurrent nowDaily : time.Time)
  /-- The `select` of lines 100-105 is tried: whether the timer channel of
  `time.After(pollInterval)` is ready, and which ready case the run time picks when both
  are ready. -/
  | wake (timerFired : Bool) (pickDone : Bool)
  /-- The operating system delivers a signal to the process. -/
  | signal (sig : Signal)

/-- The delivery of a signal by package `os/signal` to a channel of capacity 1: a send
that does not block, so the signal is dropped when the channel is full. -/
def notify (sigChan : List Signal) (sig : Signal) : List Signal :=
  if sigChan.length < 1 then sigChan ++ [sig] else sigChan

/-- One step of `main`. An event that the current control point does not wait for
leaves the state as it is. Nothing in `main` receives from `sigChan` and nothing calls
`cancel` before `main` returns, so `ctxDone` is only set by the deferred call at the
`return` of line 103. -/
def step (s : Poller) : Event → Poller
  | .flags latitude longitude =>
    match s.phase with
    | .Idle =>
      if latitude = 0 ∧ longitude = 0 then
        { s with phase := .Fatal "Please specify latitude and longitude" }
      else { s with phase := .Fetching }
    | _ => s
  | .fetched r =>
    match s.phase with
    | .Fetching =>
      match r with
      | .requestError =>
        { s with phase := .Fatal "error constructing request", requests := s.requests + 1 }
      | .transportError =>
        { s with phase := .Fatal "error in http request", requests := s.requests + 1 }
      | .body b => { s with phase := .Decoding b, requests := s.requests + 1 }
    | _ => s
  | .decode =>
    match s.phase with
    | .Decoding b =>
      match Decode b with
      | none => { s with phase := .Fatal "error decoding response body" }
      | some r => { s with phase := .Publishing r }
    | _ => s
  | .publish nowCurrent nowDaily =>
    match s.phase with
    | .Publishing r =>
      match publish s.vals { response := r, nowCurrent := nowCurrent, nowDaily := nowDaily } with
      | .done vals => { s with phase := .Waiting, vals := vals }
      | .panicked vals => { s with phase := .Panicked, vals := vals }
    | _ => s
  | .wake timerFired pickDone =>
    match s.phase with
    | .Waiting =>
      if s.ctxDone && (!timerFired || pickDone) then { s with phase := .Cancelled, ctxDone := true }
      else if timerFired then { s with phase := .Fetching }
      else s
    | _ => s
  | .signal sig =>
    match s.phase with
    | .Idle => { s with phase := .Killed }
    | .Fetching | .Decoding _ | .Publishing _ | .Waiting =>
      { s with sigChan := notify s.sigChan sig }
    | _ => s

/-- A run of `main` along a sequence of events. -/
def run (s : Poller) (evs : List Event) : Poller := evs.foldl step s

/-- The cycle fails in this step: the request cannot be built, the transport fails, or
the body cannot be decoded. -/
def cycleFails (s : Poller) (ev : Event) : Prop :=
  (∃ b, s.phase = .Decoding b ∧ ev = .decode ∧ Decode b = none) ∨
  (s.phase = .Fetching ∧ (ev = .fetched .requestError ∨ ev = .fetched .transportError))

/-! ## The gauge options and their registration (lines 199-406) -/

/-- The fields of `prometheus.GaugeOpts` that the source sets. -/
structure GaugeOpts where
  Namespace : String
  Name : String
  deriving DecidableEq, Repr

/-- The composite literal of `var metrics`: the options of each gauge (lines 204-363). -/
def metrics : Gauge → GaugeOpts
  | .elevation => ⟨"openmeteo", "elevation"⟩
  | .current .timeSinceUpdate => ⟨"openmeteo", "current_time_since_last_update"⟩
  | .current .temperature2M => ⟨"openmeteo", "current_temperature_2m"⟩
  | .current .relativeHumidity2M => ⟨"openmeteo", "current_relative_humidity_2m"⟩
  | .current .apparentTemperature => ⟨"openmeteo", "current_apparent_temperature"⟩
  | .current .precipitation => ⟨"openmeteo", "current_precipitation"⟩
  | .current .rain => ⟨"openmeteo", "current_rain"⟩
  | .current .showers => ⟨"openmeteo", "current_showers"⟩
  | .current .snowfall => ⟨"openmeteo", "current_snowfall"⟩
  | .current .weatherCode => ⟨"openmeteo", "current_weather_code"⟩
  | .current .cloudCover => ⟨"openmeteo", "current_cloud_cover"⟩
  | .current .pressureMsl => ⟨"openmeteo", "current_pressure_msl"⟩
  | .current .surfacePressure => ⟨"openmeteo", "current_surface_pressure"⟩
  | .current .windSpeed10M => ⟨"openmeteo", "current_wind_speed_10m"⟩
  | .current .windDirection10M => ⟨"openmeteo", "current_wind_direction_10m"⟩
  | .current .windGusts10m => ⟨"openmeteo", "current_wind_gusts_10m"⟩
  | .daily .timeSinceUpdate => ⟨"openmeteo", "daily_time_since_last_update"⟩
  | .daily .weatherCode => ⟨"openmeteo", "daily_weather_code"⟩
  | .daily .temperature2MMax => ⟨"openmeteo", "daily_temperature_2m_max"⟩
  | .daily .temperature2MMin => ⟨"openmeteo", "daily_temperature_2m_min"⟩
  | .daily .apparentTemperatureMax => ⟨"openmeteo", "daily_apparent_temperature_max"⟩
  | .daily .apparentTemperatureMin => ⟨"openmeteo", "daily_apparent_temperature_min"⟩
  | .daily .sunrise => ⟨"openmeteo", "daily_sunrise"⟩
  | .daily .sunset => ⟨"openmeteo", "daily_sunset"⟩
  | .daily .daylightDuraton => ⟨"openmeteo", "daily_daylight_duration"⟩
  | .daily .sunshineDuration => ⟨"openmeteo", "daily_sunshine_duration"⟩
  | .daily .uvIndexMax => ⟨"openmeteo", "daily_uv_index_max"⟩
  | .daily .uvIndexClearSkyMax => ⟨"openmeteo", "daily_uv_index_clear_sky_max"⟩
  | .daily .precipitationSum => ⟨"openmeteo", "daily_precipitation_sum"⟩
  | .daily .rainSum => ⟨"openmeteo", "daily_rain_sum"⟩
  | .daily .showersSum => ⟨"openmeteo", "daily_showers_sum"⟩
  | .daily .snowfallSum => ⟨"openmeteo", "daily_snowfall_sum"⟩
  | .daily .precipitationHours => ⟨"openmeteo", "daily_precipitation_hours"⟩
  | .daily .precipitationProbabilityMax => ⟨"openmeteo", "daily_precipitation_probability_max"⟩
  | .daily .windSpeed10MMax => ⟨"openmeteo", "daily_wind_speed_10m_max"⟩
  | .daily .windGusts10MMax => ⟨"openmeteo", "daily_wind_gusts_10m_max"⟩
  | .daily .windDirection10MDominant => ⟨"openmeteo", "daily_wind_direction_10m_dominant"⟩
  | .daily .shortwaveRadiationSum => ⟨"openmeteo", "daily_shortwave_radiation_sum"⟩
  | .daily .et0FAOEvapotranspiration => ⟨"openmeteo", "daily_et0_fao_evapotranspiration"⟩

/-- The gauges passed to `prometheus.Register` by `func init`, in source order
(lines 367-405). -/
def registered : List Gauge := [
  .elevation,
  .current .timeSinceUpdate, .current .temperature2M, .current .relativeHumidity2M,
  .current .apparentTemperature, .current .precipitation, .current .rain, .current .showers,
  .current .snowfall, .current .weatherCode, .current .cloudCover, .current .pressureMsl,
  .current .surfacePressure, .current .windSpeed10M, .current .windDirection10M,
  .current .windGusts10m,
  .daily .timeSinceUpdate, .daily .weatherCode, .daily .temperature2MMax,
  .daily .temperature2MMin, .daily .apparentTemperatureMax, .daily .apparentTemperatureMin,
  .daily .sunrise, .daily .sunset, .daily .daylightDuraton, .daily .sunshineDuration,
  .daily .uvIndexMax, .daily .uvIndexClearSkyMax, .daily .precipitationSum, .daily .rainSum,
  .daily .showersSum, .daily .snowfallSum, .daily .precipitationHours,
  .daily .precipitationProbabilityMax, .daily .windSpeed10MMax, .daily .windGusts10MMax,
  .daily .windDirection10MDominant, .daily .shortwaveRadiationSum,
  .daily .et0FAOEvapotranspiration]

/-- The names of the registered gauges. -/
def registeredNames : List String := registered.map fun g => (metrics g).Name

/-- The Go types of the fields of the response model. -/
inductive FieldType
  | float64
  | time
  deriving DecidableEq, Repr

/-- The JSON keys (struct tags) of the fields of `Current` with their types, in source
order (lines 112-126). -/
def currentFields : List (String × FieldType) := [
  ("time", .time),
  ("temperature_2m", .float64),
  ("relative_humidity_2m", .float64),
  ("apparent_temperature", .float64),
  ("precipitation", .float64),
  ("rain", .float64),
  ("showers", .float64),
  ("snowfall", .float64),
  ("weather_code", .float64),
  ("cloud_cover", .float64),
  ("pressure_msl", .float64),
  ("surface_pressure", .float64),
  ("wind_speed_10m", .float64),
  ("wind_direction_10m", .float64),
  ("wind_gusts_10m", .float64)]

/-- The JSON keys (struct tags) of the fields of `Daily` with their element types, in
source order (lines 129-151). -/
def dailyFields : List (String × FieldType) := [
  ("time", .time),
  ("weather_code", .float64),
  ("temperature_2m_max", .float64),
  ("temperature_2m_min", .float64),
  ("apparent_temperature_max", .float64),
  ("apparent_temperature_min", .float64),
  ("sunrise", .time),
  ("sunset", .time),
  ("daylight_duration", .float64),
  ("sunshine_duration", .float64),
  ("uv_index_max", .float64),
  ("uv_index_clear_sky_max", .float64),
  ("precipitation_sum", .float64),
  ("rain_sum", .float64),
  ("showers_sum", .float64),
  ("snowfall_sum", .float64),
  ("precipitation_hours", .float64),
  ("precipitation_probability_max", .float64),
  ("wind_speed_10m_max", .float64),
  ("wind_gusts_10m_max", .float64),
  ("wind_direction_10m_dominant", .float64),
  ("shortwave_radiation_sum", .float64),
  ("et0_fao_evapotranspiration", .float64)]

/-- The JSON keys of the fields of the given type. -/
def keysOfType (fields : List (String × FieldType)) (ty : FieldType) : List String :=
  (fields.filter fun f => f.2 = ty).map Prod.fst

/-- The JSON keys of the fields other than `time`. -/
def variableKeys (fields : List (String × FieldType)) : List String :=
  (fields.map Prod.fst).filter fun k => k ≠ "time"

/-- The set of gauge names that one gauge per float field, the elevation gauge and the two
freshness gauges would make. -/
def floatGaugeNames : List String :=
  ["elevation"] ++ (keysOfType currentFields .float64).map (fun k => "current_" ++ k)
    ++ (keysOfType dailyFields .float64).map (fun k => "daily_" ++ k)
    ++ ["current_time_since_last_update", "daily_time_since_last_update"]

/-- The set of gauge names that one gauge per variable of either type, the elevation gauge
and the two freshness gauges make. -/
def variableGaugeNames : List String :=
  ["elevation", "current_time_since_last_update"]
    ++ (variableKeys currentFields).map (fun k => "current_" ++ k)
    ++ ["daily_time_since_last_update"]
    ++ (variableKeys dailyFields).map (fun k => "daily_" ++ k)

/-! ## The request URL (line 19) -/

/-- The format string `url`. -/
def url : String :=
  "https://api.open-meteo.com/v1/forecast?latitude=%f&longitude=%f&current=temperature_2m,relative_humidity_2m,apparent_temperature,is_day,precipitation,rain,showers,snowfall,weather_code,cloud_cover,pressure_msl,surface_pressure,wind_speed_10m,wind_direction_10m,wind_gusts_10m&daily=weather_code,temperature_2m_max,temperature_2m_min,apparent_temperature_max,apparent_temperature_min,sunrise,sunset,daylight_duration,sunshine_duration,uv_index_max,uv_index_clear_sky_max,precipitation_sum,rain_sum,showers_sum,snowfall_sum,precipitation_hours,precipitation_probability_max,wind_speed_10m_max,wind_gusts_10m_max,wind_direction_10m_dominant,shortwave_radiation_sum,et0_fao_evapotranspiration&timezone=America%%2FLos_Angeles&forecast_days=1"

/-- The pieces of a text between occurrences of a separator. -/
def splitAt (sep : Char) : List Char → List (List Char)
  | [] => [[]]
  | c :: rest =>
    if c = sep then [] :: splitAt sep rest
    else
      match splitAt sep rest with
      | [] => [[c]]
      | piece :: pieces => (c :: piece) :: pieces

/-- The text after the first occurrence of a character, empty without one. -/
def afterFirst (sep : Char) : List Char → List Char
  | [] => []
  | c :: rest => if c = sep then rest else afterFirst sep rest

/-- The comma-separated values of the query parameter `key` of a URL, empty when the
URL has no such parameter. -/
def queryList (u : String) (key : String) : List String :=
  let params := splitAt '&' (afterFirst '?' u.toList)
  match params.find? (fun p => (key.toList ++ ['=']).isPrefixOf p) with
  | none => []
  | some p => (splitAt ',' (p.drop (key.length + 1))).map String.mk

/-- The variables requested for the current group. -/
def urlCurrent : List String := queryList url "current"

/-- The variables requested for the daily group. -/
def urlDaily : List String := queryList url "daily"

/-! ## Sample inputs -/

/-- A response with two entries per daily slice: elevation 12.3, current temperature
18.5, daily maximum temperatures 22.1 and 23.0; `t` is put at every timestamp. -/
def sampleResponse (T : Type) (t : T) : response T :=
  { Elevation := 123 / 10
    Current :=
      { Time := t, Temperature2M := 37 / 2, RelativeHumidity2M := 60,
        ApparentTemperature := 18, Precipitation := 0, Rain := 0, Showers := 0, Snowfall := 0,
        WeatherCode := 3, CloudCover := 75, PressureMsl := 1013, SurfacePressure := 1010,
        WindSpeed10M := 9, WindDirection10M := 270, WindGusts10m := 20 }
    Daily :=
      { Time := [t, t], WeatherCode := [3, 61], Temperature2MMax := [221 / 10, 23],
        Temperature2MMin := [11, 12], ApparentTemperatureMax := [21, 22],
        ApparentTemperatureMin := [10, 11], Sunrise := [t, t], Sunset := [t, t],
        DaylightDuraton := [50000, 50100], SunshineDuration := [40000, 30000],
        UVIndexMax := [7, 6], UVIndexClearSkyMax := [8, 8], PrecipitationSum := [0, 4],
        RainSum := [0, 4], ShowersSum := [0, 0], SnowfallSum := [0, 0],
        PrecipitationHours := [0, 3], PrecipitationProbabilityMax := [5, 80],
        WindSpeed10MMax := [15, 18], WindGusts10MMax := [30, 35],
        WindDirection10MDominant := [280, 200], ShortwaveRadiationSum := [25, 18],
        ET0FAOEvapotranspiration := [5, 4] } }

/-- The instant `2024-05-01T12:00:00Z`, in nanoseconds since year 1. -/
def sampleNow : time.Time := 63850161600000000000

/-- A publish environment over the sample response, observed 90 seconds (current) and
12 hours (daily) after the timestamps of the response. -/
def sampleEnv : PublishEnv :=
  { response := sampleResponse time.Time (sampleNow - 90000000000)
    nowCurrent := sampleNow
    nowDaily := sampleNow + 43110000000000 }

/-- The sample response with its daily maximum temperatures missing. -/
def sampleEnvEmpty : PublishEnv :=
  { sampleEnv with
    response := { sampleEnv.response with
      Daily := { sampleEnv.response.Daily with Temperature2MMax := [] } } }

/-- A body as the upstream API sends it by default: timestamps in local time without
seconds and without zone offset, days as dates. -/
def sampleBody : Body :=
  .document
    { sampleResponse RawTime "\"2024-05-01T12:00\"" with
      Daily := { (sampleResponse RawTime "\"2024-05-01T12:00\"").Daily with
        Time := ["\"2024-05-01\"", "\"2024-05-02\""] } }

/-- A body whose timestamps are all in RFC 3339 form. -/
def sampleBodyRFC3339 : Body := .document (sampleResponse RawTime "\"2024-05-01T12:00:00Z\"")

/-- The sample response with the zero time at every timestamp (as when the keys are
absent from the body), observed at 2024-05-01T12:00:00Z. -/
def sampleEnvZeroTime : PublishEnv :=
  { response := sampleResponse time.Time 0, nowCurrent := sampleNow, nowDaily := sampleNow }

/-- A poller that is about to fetch. -/
def sampleFetching : Poller := { Poller.init with phase := .Fetching }


/-! ## Properties of package `time` -/

theorem time.Sub_eq_clampDuration (t u : Int) :
    time.Time.Sub t u = time.clampDuration (t - u) := by
  unfold time.Time.Sub time.clampDuration time.Time.Add time.wrapInt64 time.Time.sec
    time.Time.nsec time.Second time.minDuration time.maxDuration
  simp only [time.Time, time.Duration]
  split_ifs <;> omega

theorem time.clampDuration_of_range (x : Int)
    (h : time.minDuration ≤ x ∧ x ≤ time.maxDuration) : time.clampDuration x = x := by
  unfold time.clampDuration
  unfold time.minDuration time.maxDuration at *
  simp only [time.Duration] at *
  split_ifs <;> omega

/-! ## Properties of float64 rounding -/

theorem roundHalfEven_near (y : ℚ) : |(roundHalfEven y : ℚ) - y| ≤ 1 / 2 := by
  have h1 := Int.floor_le y
  have h2 := Int.lt_floor_add_one y
  unfold roundHalfEven
  simp only []
  split_ifs with a b c
  · rw [abs_le]; constructor <;> linarith
  · rw [abs_le]; push_cast; constructor <;> linarith
  · rw [abs_le]; constructor <;> linarith
  · rw [abs_le]; push_cast; constructor <;> linarith

theorem roundHalfEven_of_near (y : ℚ) (m : Int) (h : |y - m| < 1 / 2) :
    roundHalfEven y = m := by
  rw [abs_lt] at h
  obtain ⟨h1, h2⟩ := h
  unfold roundHalfEven
  simp only []
  by_cases hm : (m : ℚ) ≤ y
  · have hf : ⌊y⌋ = m := Int.floor_eq_iff.mpr ⟨hm, by linarith⟩
    rw [hf, if_pos (by linarith)]
  · have hf : ⌊y⌋ = m - 1 := Int.floor_eq_iff.mpr ⟨by push_cast; linarith, by push_cast; linarith⟩
    rw [hf]
    have : ¬ (y - ((m - 1 : Int) : ℚ) < 1 / 2) := by push_cast; linarith
    rw [if_neg this, if_pos (by push_cast; linarith)]
    ring

theorem roundHalfEven_intCast (n : Int) : roundHalfEven (n : ℚ) = n :=
  roundHalfEven_of_near _ n (by simp)

theorem float64Round_eq (x : ℚ) (e m : Int) (he1 : (2 : ℚ) ^ e ≤ |x|)
    (he2 : |x| < (2 : ℚ) ^ (e + 1)) (hp : -1022 ≤ e)
    (hm : |x / 2 ^ (e - 52) - m| < 1 / 2) :
    float64Round x = (m : ℚ) * 2 ^ (e - 52) := by
  have hpos : 0 < |x| := lt_of_lt_of_le (by positivity) he1
  have hx : x ≠ 0 := abs_pos.mp hpos
  have hlog : Int.log 2 |x| = e := by
    apply le_antisymm
    · have := (Int.lt_zpow_iff_log_lt (b := 2) (by norm_num) hpos (x := e + 1)).mp
        (by exact_mod_cast he2)
      omega
    · exact (Int.zpow_le_iff_le_log (b := 2) (by norm_num) hpos).mp (by exact_mod_cast he1)
  unfold float64Round
  rw [if_neg hx]
  simp only [hlog, max_eq_left hp]
  rw [roundHalfEven_of_near _ m hm]

theorem float64Round_near (x : ℚ) (k : Int) (hk : -1021 ≤ k) (hx : |x| < (2 : ℚ) ^ k) :
    |float64Round x - x| ≤ (2 : ℚ) ^ (k - 54) := by
  unfold float64Round
  by_cases h0 : x = 0
  · rw [if_pos h0, h0]; simp; positivity
  · rw [if_neg h0]
    simp only []
    have hpos : 0 < |x| := abs_pos.mpr h0
    have hlog : Int.log 2 |x| < k :=
      (Int.lt_zpow_iff_log_lt (b := 2) (by norm_num) hpos).mp (by exact_mod_cast hx)
    set p := max (Int.log 2 |x|) (-1022) - 52 with hpdef
    have hp : p ≤ k - 53 := by
      rcases max_cases (Int.log 2 |x|) (-1022) with ⟨h, _⟩ | ⟨h, _⟩ <;> omega
    have h2p : (0 : ℚ) < 2 ^ p := by positivity
    have hr := roundHalfEven_near (x / 2 ^ p)
    have heq : (roundHalfEven (x / 2 ^ p) : ℚ) * 2 ^ p - x
        = ((roundHalfEven (x / 2 ^ p) : ℚ) - x / 2 ^ p) * 2 ^ p := by
      field_simp
    rw [heq, abs_mul, abs_of_pos h2p]
    have hle : (2 : ℚ) ^ p ≤ 2 ^ (k - 53) := zpow_le_zpow_right₀ (by norm_num) hp
    have hsplit : (2 : ℚ) ^ (k - 54) = 1 / 2 * 2 ^ (k - 53) := by
      have : k - 53 = (k - 54) + 1 := by ring
      rw [this, zpow_add_one₀ (by norm_num)]
      ring
    rw [hsplit]
    exact mul_le_mul hr hle (le_of_lt h2p) (by norm_num)

theorem float64Round_intCast (n : Int) (h : |n| < 9007199254740992) :
    float64Round (n : ℚ) = n := by
  by_cases h0 : n = 0
  · subst h0; simp [float64Round]
  · have hq : (n : ℚ) ≠ 0 := by exact_mod_cast h0
    have hpos : 0 < |(n : ℚ)| := abs_pos.mpr hq
    have h1 : (1 : ℚ) ≤ |(n : ℚ)| := by
      have : 1 ≤ |n| := Int.one_le_abs h0
      exact_mod_cast this
    have he0 : 0 ≤ Int.log 2 |(n : ℚ)| :=
      (Int.zpow_le_iff_le_log (b := 2) (by norm_num) hpos).mp (by simpa using h1)
    have he1 : Int.log 2 |(n : ℚ)| < 53 :=
      (Int.lt_zpow_iff_log_lt (b := 2) (by norm_num) hpos).mp (by
        have : |(n : ℚ)| < 9007199254740992 := by exact_mod_cast h
        norm_num
        exact this)
    unfold float64Round
    rw [if_neg hq]
    simp only []
    rw [max_eq_left (by omega)]
    obtain ⟨k, hk⟩ : ∃ k : ℕ, Int.log 2 |(n : ℚ)| - 52 = -(k : Int) :=
      ⟨(52 - Int.log 2 |(n : ℚ)|).toNat, by omega⟩
    rw [hk, zpow_neg, zpow_natCast]
    have hi : (n : ℚ) / (2 ^ k)⁻¹ = ((n * 2 ^ k : Int) : ℚ) := by
      push_cast
      field_simp
    rw [hi, roundHalfEven_intCast]
    push_cast
    field_simp

/-! ## Properties of `Duration.Seconds` -/

theorem time.clampDuration_range (x : Int) :
    time.minDuration ≤ time.clampDuration x ∧ time.clampDuration x ≤ time.maxDuration := by
  unfold time.clampDuration time.minDuration time.maxDuration
  simp only [time.Duration]
  split_ifs <;> omega

/-- The quotient and remainder of Go's truncating division by `Second`. -/
theorem time.tdiv_tmod_Second (d : Int) :
    d = 1000000000 * Int.tdiv d 1000000000 + Int.tmod d 1000000000 ∧
    -1000000000 < Int.tmod d 1000000000 ∧ Int.tmod d 1000000000 < 1000000000 ∧
    (0 ≤ d → 0 ≤ Int.tmod d 1000000000) ∧ (d ≤ 0 → Int.tmod d 1000000000 ≤ 0) := by
  have h := Int.tdiv_add_tmod d 1000000000
  rcases le_total 0 d with hd | hd
  · have h1 : Int.tdiv d 1000000000 = d / 1000000000 := Int.tdiv_eq_ediv hd (by norm_num)
    rw [h1] at h ⊢
    refine ⟨by omega, by omega, by omega, fun _ => by omega, fun _ => by omega⟩
  · obtain ⟨a, rfl⟩ : ∃ a : Int, d = -a := ⟨-d, by ring⟩
    have ha : 0 ≤ a := by omega
    have h1 : Int.tdiv (-a) 1000000000 = -(a / 1000000000) := by
      rw [Int.neg_tdiv, Int.tdiv_eq_ediv ha (by norm_num)]
    rw [h1] at h ⊢
    refine ⟨by omega, by omega, by omega, fun _ => by omega, fun _ => by omega⟩

/-- The float64 value of `d.Seconds()` lies within `2^-19` of the exact quotient of the
nanosecond count by 10^9, for every `d` in the range of `Duration`. -/
theorem time.Seconds_near (d : Int) (h : time.minDuration ≤ d ∧ d ≤ time.maxDuration) :
    |time.Duration.Seconds d - (d : ℚ) / 1000000000| ≤ 1 / 524288 := by
  unfold time.minDuration time.maxDuration at h
  simp only [time.Duration] at h
  obtain ⟨hd, hr1, hr2, hpos, hneg⟩ := time.tdiv_tmod_Second d
  unfold time.Duration.Seconds time.Second
  simp only []
  set s := Int.tdiv d 1000000000 with hs
  set r := Int.tmod d 1000000000 with hr
  have hsb : |s| ≤ 9223372036 := by
    rw [abs_le]
    rcases le_total 0 d with h0 | h0
    · have := hpos h0
      constructor <;> omega
    · have := hneg h0
      constructor <;> omega
  have hrb : |r| < 1000000000 := by rw [abs_lt]; constructor <;> omega
  rw [float64Round_intCast s (by omega), float64Round_intCast r (by omega)]
  have hsq : |(s : ℚ)| ≤ 9223372036 := by exact_mod_cast hsb
  have hrq : |(r : ℚ)| ≤ 999999999 := by
    have : |r| ≤ 999999999 := by omega
    exact_mod_cast this
  have hq : |(r : ℚ) / 1000000000| ≤ 999999999 / 1000000000 := by
    rw [abs_div, abs_of_pos (by norm_num : (0 : ℚ) < 1000000000)]
    exact div_le_div_of_nonneg_right hrq (by norm_num)
  have e1 := float64Round_near ((r : ℚ) / 1000000000) 0 (by norm_num)
    (lt_of_le_of_lt hq (by norm_num))
  set f := float64Round ((r : ℚ) / 1000000000) with hf
  have hfb : |f| ≤ 1 := by
    have := abs_sub_abs_le_abs_sub f ((r : ℚ) / 1000000000)
    have h54 : (2 : ℚ) ^ ((0 : Int) - 54) ≤ 1 / 1000000000 := by
      rw [show ((0 : Int) - 54) = -((54 : ℕ) : Int) by norm_num, zpow_neg, zpow_natCast]
      norm_num
    linarith
  have hsum : |(s : ℚ) + f| < (2 : ℚ) ^ (34 : Int) := by
    have := abs_add (s : ℚ) f
    have h34 : (2 : ℚ) ^ (34 : Int) = 17179869184 := by norm_num
    rw [h34]
    linarith
  have e2 := float64Round_near ((s : ℚ) + f) 34 (by norm_num) hsum
  have hdq : (d : ℚ) / 1000000000 = (s : ℚ) + (r : ℚ) / 1000000000 := by
    have : (d : ℚ) = 1000000000 * (s : ℚ) + (r : ℚ) := by exact_mod_cast hd
    rw [this]; field_simp; ring
  have h54 : (2 : ℚ) ^ ((0 : Int) - 54) ≤ 1 / 1048576 := by
    rw [show ((0 : Int) - 54) = -((54 : ℕ) : Int) by norm_num, zpow_neg, zpow_natCast]
    norm_num
  have h20 : (2 : ℚ) ^ ((34 : Int) - 54) = 1 / 1048576 := by
    rw [show ((34 : Int) - 54) = -((20 : ℕ) : Int) by norm_num, zpow_neg, zpow_natCast]
    norm_num
  rw [h20] at e2
  rw [hdq]
  have htri : |float64Round ((s : ℚ) + f) - ((s : ℚ) + (r : ℚ) / 1000000000)|
      ≤ |float64Round ((s : ℚ) + f) - ((s : ℚ) + f)| + |f - (r : ℚ) / 1000000000| := by
    have := abs_add (float64Round ((s : ℚ) + f) - ((s : ℚ) + f)) (f - (r : ℚ) / 1000000000)
    have heq : float64Round ((s : ℚ) + f) - ((s : ℚ) + f) + (f - (r : ℚ) / 1000000000)
        = float64Round ((s : ℚ) + f) - ((s : ℚ) + (r : ℚ) / 1000000000) := by ring
    rw [heq] at this
    exact this
  linarith

/-- A whole number of seconds is converted exactly. -/
theorem time.Seconds_whole (n : Int) (h : |n| < 9007199254740992) :
    time.Duration.Seconds (n * 1000000000) = (n : ℚ) := by
  unfold time.Duration.Seconds time.Second
  have h1 : Int.tdiv (n * 1000000000) 1000000000 = n :=
    Int.mul_tdiv_cancel n (by norm_num)
  have h2 : Int.tmod (n * 1000000000) 1000000000 = 0 := Int.mul_tmod_left n 1000000000
  simp only [h1, h2]
  rw [float64Round_intCast n h]
  have hz : float64Round ((0 : Int) : ℚ) = 0 := by simp [float64Round]
  rw [hz]
  have hz2 : float64Round ((0 : ℚ) / 1000000000) = 0 := by simp [float64Round]
  rw [hz2, add_zero, float64Round_intCast n h]

/-- The seconds of `maxDuration` as a float64: 9223372036.854776. -/
theorem time.Seconds_maxDuration :
    time.Duration.Seconds time.maxDuration = 4835703278458517 / 524288 := by
  unfold time.Duration.Seconds time.Second time.maxDuration
  have h1 : Int.tdiv 9223372036854775807 1000000000 = 9223372036 := by decide
  have h2 : Int.tmod 9223372036854775807 1000000000 = 854775807 := by decide
  simp only [h1, h2]
  rw [float64Round_intCast 9223372036 (by norm_num),
    float64Round_intCast 854775807 (by norm_num)]
  have hq : float64Round (((854775807 : Int) : ℚ) / 1000000000)
      = ((7699136011781030 : Int) : ℚ) * 2 ^ ((-1 : Int) - 52) := by
    apply float64Round_eq
    · norm_num [abs_of_pos]
    · norm_num [abs_of_pos]
    · norm_num
    · rw [show ((-1 : Int) - 52) = -((53 : ℕ) : Int) by norm_num, zpow_neg, zpow_natCast,
        abs_lt]
      constructor <;> norm_num
  rw [hq]
  have hsum : float64Round (((9223372036 : Int) : ℚ)
      + ((7699136011781030 : Int) : ℚ) * 2 ^ ((-1 : Int) - 52))
      = ((4835703278458517 : Int) : ℚ) * 2 ^ ((33 : Int) - 52) := by
    apply float64Round_eq
    · rw [show ((-1 : Int) - 52) = -((53 : ℕ) : Int) by norm_num, zpow_neg, zpow_natCast]
      norm_num [abs_of_pos]
    · rw [show ((-1 : Int) - 52) = -((53 : ℕ) : Int) by norm_num, zpow_neg, zpow_natCast]
      norm_num [abs_of_pos]
    · norm_num
    · rw [show ((-1 : Int) - 52) = -((53 : ℕ) : Int) by norm_num,
        show ((33 : Int) - 52) = -((19 : ℕ) : Int) by norm_num, zpow_neg, zpow_neg,
        zpow_natCast, zpow_natCast, abs_lt]
      constructor <;> norm_num
  rw [hsum, show ((33 : Int) - 52) = -((19 : ℕ) : Int) by norm_num, zpow_neg, zpow_natCast]
  norm_num

/-- A tenth of a second is converted to the float64 nearest to 0.1, which is not 1/10. -/
theorem time.Seconds_tenth :
    time.Duration.Seconds 100000000 = 3602879701896397 / 36028797018963968 := by
  unfold time.Duration.Seconds time.Second
  have h1 : Int.tdiv 100000000 1000000000 = 0 := by decide
  have h2 : Int.tmod 100000000 1000000000 = 100000000 := by decide
  simp only [h1, h2]
  rw [float64Round_intCast 0 (by norm_num), float64Round_intCast 100000000 (by norm_num)]
  have hq : float64Round (((100000000 : Int) : ℚ) / 1000000000)
      = ((7205759403792794 : Int) : ℚ) * 2 ^ ((-4 : Int) - 52) := by
    apply float64Round_eq
    · rw [show (-4 : Int) = -((4 : ℕ) : Int) by norm_num, zpow_neg, zpow_natCast]
      norm_num [abs_of_pos]
    · rw [show ((-4 : Int) + 1) = -((3 : ℕ) : Int) by norm_num, zpow_neg, zpow_natCast]
      norm_num [abs_of_pos]
    · norm_num
    · rw [show ((-4 : Int) - 52) = -((56 : ℕ) : Int) by norm_num, zpow_neg, zpow_natCast,
        abs_lt]
      constructor <;> norm_num
  rw [hq]
  have hsum : float64Round ((((0 : Int) : ℚ))
      + ((7205759403792794 : Int) : ℚ) * 2 ^ ((-4 : Int) - 52))
      = ((7205759403792794 : Int) : ℚ) * 2 ^ ((-4 : Int) - 52) := by
    apply float64Round_eq
    · rw [show ((-4 : Int) - 52) = -((56 : ℕ) : Int) by norm_num,
        show (-4 : Int) = -((4 : ℕ) : Int) by norm_num, zpow_neg, zpow_neg, zpow_natCast,
        zpow_natCast]
      norm_num [abs_of_pos]
    · rw [show ((-4 : Int) - 52) = -((56 : ℕ) : Int) by norm_num,
        show ((-4 : Int) + 1) = -((3 : ℕ) : Int) by norm_num, zpow_neg, zpow_neg,
        zpow_natCast, zpow_natCast]
      norm_num [abs_of_pos]
    · norm_num
    · rw [show ((-4 : Int) - 52) = -((56 : ℕ) : Int) by norm_num, zpow_neg, zpow_natCast,
        abs_lt]
      constructor <;> norm_num
  rw [hsum, show ((-4 : Int) - 52) = -((56 : ℕ) : Int) by norm_num, zpow_neg, zpow_natCast]
  norm_num

/-! ## Properties of `Time.UnmarshalJSON` -/

namespace time

theorem isDigit_lt (s : List Char) (i : Nat) (h : isDigit s i = true) : i < s.length := by
  unfold isDigit at h
  by_contra hlt
  rw [List.drop_of_length_le (by omega)] at h
  simp at h

theorem skip_single_length (value rest : List Char) (c : Char)
    (h : skip value [c] = some rest) : value.length = rest.length + 1 := by
  cases value with
  | nil => simp [skip] at h
  | cons v vs =>
    simp only [skip] at h
    split_ifs at h
    simp only [skip, Option.some.injEq] at h
    subst h
    rfl

theorem getnum_fixed_length (s : List Char) (r : Nat × List Char)
    (h : getnum s true = some r) : s.length = r.2.length + 2 := by
  unfold getnum at h
  by_cases h0 : isDigit s 0 = true
  · by_cases h1 : isDigit s 1 = true
    · simp only [h0, h1, Bool.not_true, Bool.false_eq_true, if_false, Option.some.injEq] at h
      subst h
      have := isDigit_lt s 1 h1
      simp only [List.length_drop]
      omega
    · simp [h0, h1] at h
  · simp [h0] at h

theorem getnum_length (s : List Char) (fixed : Bool) (r : Nat × List Char)
    (h : getnum s fixed = some r) : r.2.length + 1 ≤ s.length := by
  unfold getnum at h
  by_cases h0 : isDigit s 0 = true
  · have hl := isDigit_lt s 0 h0
    by_cases h1 : isDigit s 1 = true
    · simp only [h0, h1, Bool.not_true, Bool.false_eq_true, if_false, Option.some.injEq] at h
      subst h
      simp only [List.length_drop]
      omega
    · cases fixed with
      | true => simp [h0, h1] at h
      | false =>
        simp only [h0, h1, Bool.not_true, Bool.false_eq_true, if_false, Bool.not_false,
          if_true, Option.some.injEq, Bool.not_eq_true] at h
        subst h
        simp only [List.length_drop]
        omega
  · simp [h0] at h

theorem parseZone_length (value : List Char) (z : Int × List Char)
    (h : parseZone value = some z) : z.2.length + 1 ≤ value.length := by
  unfold parseZone at h
  by_cases h0 : (value.head? == some 'Z') = true
  · rw [if_pos h0] at h
    simp only [Option.some.injEq] at h
    subst h
    cases value with
    | nil => simp at h0
    | cons v vs => simp
  · rw [if_neg h0] at h
    by_cases h1 : value.length < 6
    · rw [if_pos h1] at h
      exact absurd h (by simp)
    · rw [if_neg h1] at h
      by_cases h2 : ((value.drop 3).head? != some ':') = true
      · rw [if_pos h2] at h
        exact absurd h (by simp)
      · rw [if_neg h2] at h
        obtain ⟨hr, -, h⟩ := Option.bind_eq_some.mp h
        obtain ⟨mm, -, h⟩ := Option.bind_eq_some.mp h
        split_ifs at h <;> simp only [Option.some.injEq] at h <;> subst h <;>
          simp only [List.length_drop] <;> omega

theorem parseLayoutFraction_length (value : List Char) :
    (parseLayoutFraction value).2.length ≤ value.length := by
  unfold parseLayoutFraction
  split_ifs
  · simp only [List.length_drop]
    omega
  · exact le_refl _

theorem parseLayoutDate_length (value : List Char) (d : Int × Nat × Nat × List Char)
    (h : parseLayoutDate value = some d) : value.length = d.2.2.2.length + 10 := by
  unfold parseLayoutDate at h
  split_ifs at h with h0 h1
  simp only [] at h
  obtain ⟨v1, hv1, h⟩ := Option.bind_eq_some.mp h
  obtain ⟨mo, hmo, h⟩ := Option.bind_eq_some.mp h
  split_ifs at h
  obtain ⟨v2, hv2, h⟩ := Option.bind_eq_some.mp h
  obtain ⟨da, hda, h⟩ := Option.bind_eq_some.mp h
  simp only [Option.some.injEq] at h
  subst h
  have e1 := skip_single_length _ _ _ hv1
  have e2 := getnum_fixed_length _ _ hmo
  have e3 := skip_single_length _ _ _ hv2
  have e4 := getnum_fixed_length _ _ hda
  simp only [List.length_drop] at e1
  simp only [Bool.or_eq_true, decide_eq_true_eq, not_or, not_lt] at h0
  show value.length = da.2.length + 10
  omega

theorem parseLayoutClock_length (value : List Char) (c : Nat × Nat × Nat × List Char)
    (h : parseLayoutClock value = some c) : c.2.2.2.length + 8 ≤ value.length := by
  unfold parseLayoutClock at h
  obtain ⟨v1, hv1, h⟩ := Option.bind_eq_some.mp h
  obtain ⟨ho, hho, h⟩ := Option.bind_eq_some.mp h
  split_ifs at h
  obtain ⟨v2, hv2, h⟩ := Option.bind_eq_some.mp h
  obtain ⟨mi, hmi, h⟩ := Option.bind_eq_some.mp h
  split_ifs at h
  obtain ⟨v3, hv3, h⟩ := Option.bind_eq_some.mp h
  obtain ⟨se, hse, h⟩ := Option.bind_eq_some.mp h
  split_ifs at h
  simp only [Option.some.injEq] at h
  subst h
  have e1 := skip_single_length _ _ _ hv1
  have e2 := getnum_length _ _ _ hho
  have e3 := skip_single_length _ _ _ hv2
  have e4 := getnum_fixed_length _ _ hmi
  have e5 := skip_single_length _ _ _ hv3
  have e6 := getnum_fixed_length _ _ hse
  show se.2.length + 8 ≤ value.length
  omega

/-- A text that `Parse(RFC3339, value)` accepts has at least 19 bytes: a date, `T`, a
time with seconds, and a zone. -/
theorem ParseRFC3339Layout_length (value : List Char) (t : Time)
    (h : ParseRFC3339Layout value = some t) : 19 ≤ value.length := by
  unfold ParseRFC3339Layout at h
  obtain ⟨d, hd, h⟩ := Option.bind_eq_some.mp h
  obtain ⟨c, hc, h⟩ := Option.bind_eq_some.mp h
  simp only [] at h
  obtain ⟨z, hz, h⟩ := Option.bind_eq_some.mp h
  have e1 := parseLayoutDate_length _ _ hd
  have e2 := parseLayoutClock_length _ _ hc
  have e3 := parseLayoutFraction_length c.2.2.2
  have e4 := parseZone_length _ _ hz
  omega

/-- A text of fewer than 19 bytes is not accepted as a time. -/
theorem parseStrictRFC3339_short (b : List Char) (h : b.length < 19) :
    parseStrictRFC3339 b = none := by
  unfold parseStrictRFC3339
  have h1 : parseRFC3339 b = none := by
    unfold parseRFC3339
    rw [if_pos h]
  rw [h1]
  cases h2 : ParseRFC3339Layout b with
  | none => rfl
  | some t =>
    have := ParseRFC3339Layout_length b t h2
    omega

/-- A JSON value of fewer than 21 bytes other than `null` is not accepted as a time. -/
theorem UnmarshalJSON_short (t : Time) (data : String) (hn : data ≠ "null")
    (h : data.length < 21) : Time.UnmarshalJSON t data = none := by
  unfold Time.UnmarshalJSON
  rw [if_neg hn]
  simp only []
  split_ifs
  · rfl
  · apply parseStrictRFC3339_short
    unfold slice
    simp only [List.length_take, List.length_drop]
    have : data.toList.length = data.length := rfl
    omega

end time

/-! ## Properties of the publish step -/

theorem GaugeValues.Set_same (vals : GaugeValues) (g : Gauge) (v : Float64) :
    vals.Set g v g = v := by
  simp [GaugeValues.Set]

theorem GaugeValues.Set_other (vals : GaugeValues) (g h : Gauge) (v : Float64) (hne : h ≠ g) :
    vals.Set g v h = vals h := by
  simp [GaugeValues.Set, hne]

/-- A run never changes a gauge that no statement names. -/
theorem runStmts_untouched (e : PublishEnv) (stmts : List SetStmt) (vals : GaugeValues)
    (g : Gauge) (hg : g ∉ stmts.map Prod.fst) :
    (runStmts e stmts vals).vals g = vals g := by
  induction stmts generalizing vals with
  | nil => rfl
  | cons s rest ih =>
    obtain ⟨g0, rhs⟩ := s
    simp only [List.map_cons, List.mem_cons, not_or] at hg
    simp only [runStmts]
    cases hr : rhs e with
    | none => rfl
    | some v =>
      simp only []
      rw [ih _ hg.2, GaugeValues.Set_other _ _ _ _ hg.1]

/-- When every argument expression evaluates, the run completes, and each gauge named
by a statement (the gauges being pairwise distinct) holds the value of its expression. -/
theorem runStmts_done (e : PublishEnv) (stmts : List SetStmt) (vals : GaugeValues)
    (hnd : (stmts.map Prod.fst).Nodup) (hall : ∀ s ∈ stmts, (s.2 e).isSome = true) :
    ∃ vals', runStmts e stmts vals = .done vals' ∧
      ∀ s ∈ stmts, s.2 e = some (vals' s.1) := by
  induction stmts generalizing vals with
  | nil => exact ⟨vals, rfl, by simp⟩
  | cons s rest ih =>
    obtain ⟨g0, rhs⟩ := s
    simp only [List.map_cons, List.nodup_cons] at hnd
    have h0 := hall (g0, rhs) (List.mem_cons_self _ _)
    obtain ⟨v, hv⟩ := Option.isSome_iff_exists.mp h0
    replace hv : rhs e = some v := hv
    obtain ⟨vals', hrun, hvals⟩ := ih (vals.Set g0 v) hnd.2
      (fun s hs => hall s (List.mem_cons_of_mem _ hs))
    refine ⟨vals', ?_, ?_⟩
    · simp only [runStmts]
      rw [hv]
      exact hrun
    · intro s hs
      rcases List.mem_cons.mp hs with rfl | hs
      · have := runStmts_untouched e rest (vals.Set g0 v) g0 hnd.1
        rw [hrun] at this
        simp only [PublishResult.vals] at this
        show rhs e = some (vals' g0)
        rw [hv, this, GaugeValues.Set_same]
      · exact hvals s hs

/-- When some argument expression panics, the run panics, and every gauge whose
expression panics keeps the value it had before the run. -/
theorem runStmts_panicked (e : PublishEnv) (stmts : List SetStmt) (vals : GaugeValues)
    (hnd : (stmts.map Prod.fst).Nodup) (hex : ∃ s ∈ stmts, s.2 e = none) :
    ∃ vals', runStmts e stmts vals = .panicked vals' ∧
      ∀ s ∈ stmts, s.2 e = none → vals' s.1 = vals s.1 := by
  induction stmts generalizing vals with
  | nil => simp at hex
  | cons s rest ih =>
    obtain ⟨g0, rhs⟩ := s
    simp only [List.map_cons, List.nodup_cons] at hnd
    cases hr : rhs e with
    | none =>
      refine ⟨vals, ?_, fun _ _ _ => rfl⟩
      simp only [runStmts, hr]
    | some v =>
      have hex' : ∃ s ∈ rest, s.2 e = none := by
        obtain ⟨s, hs, hn⟩ := hex
        rcases List.mem_cons.mp hs with rfl | hs
        · replace hn : rhs e = none := hn
          rw [hr] at hn
          exact absurd hn (by simp)
        · exact ⟨s, hs, hn⟩
      obtain ⟨vals', hrun, hkeep⟩ := ih (vals.Set g0 v) hnd.2 hex'
      refine ⟨vals', ?_, ?_⟩
      · simp only [runStmts, hr]
        exact hrun
      · intro s hs hn
        rcases List.mem_cons.mp hs with rfl | hs
        · replace hn : rhs e = none := hn
          rw [hr] at hn
          exact absurd hn (by simp)
        · rw [hkeep s hs hn]
          apply GaugeValues.Set_other
          intro heq
          exact hnd.1 (heq ▸ List.mem_map_of_mem Prod.fst hs)

theorem publishStmts_nodup : (publishStmts.map Prod.fst).Nodup := by
  simp only [publishStmts, List.map_cons, List.map_nil]
  decide

theorem index0_eq_head? {α : Type} (xs : List α) : index0 xs = xs.head? := by
  cases xs <;> rfl

theorem index0_isSome {α : Type} (xs : List α) (h : 1 ≤ xs.length) :
    (index0 xs).isSome = true := by
  cases xs with
  | nil => simp at h
  | cons x rest => rfl

theorem index0_nil {α : Type} (xs : List α) (h : xs.length = 0) : index0 xs = none := by
  cases xs with
  | nil => rfl
  | cons x rest => simp at h

/-- With every consumed daily slice non-empty, every argument expression of the publish
step evaluates. -/
theorem publishStmts_defined (e : PublishEnv)
    (hN : ∀ n ∈ consumedDailyLengths e.response.Daily, 1 ≤ n) :
    ∀ s ∈ publishStmts, (s.2 e).isSome = true := by
  simp only [consumedDailyLengths, List.forall_mem_cons, List.not_mem_nil, false_imp_iff,
    implies_true, and_true] at hN
  simp only [publishStmts, List.forall_mem_cons, List.not_mem_nil, false_imp_iff,
    implies_true, and_true, Option.isSome_some, true_and]
  obtain ⟨h1, h2, h3, h4, h5, h6, h7, h8, h9, h10, h11, h12, h13, h14, h15, h16, h17, h18,
    h19, h20, h21⟩ := hN
  refine ⟨?_, ?_, ?_, ?_, ?_, ?_, ?_, ?_, ?_, ?_, ?_, ?_, ?_, ?_, ?_, ?_, ?_, ?_, ?_, ?_, ?_⟩
  · have h := index0_isSome _ h1
    cases hT : index0 e.response.Daily.Time with
    | none => rw [hT] at h; exact absurd h (by simp)
    | some t => rfl
  all_goals (apply index0_isSome; assumption)

theorem index0_isSome_iff {α : Type} (xs : List α) :
    (index0 xs).isSome = true ↔ 1 ≤ xs.length := by
  cases xs <;> simp [index0]

/-- Every argument expression of the publish step evaluates exactly when every consumed
daily slice is non-empty. -/
theorem publishStmts_defined_iff (e : PublishEnv) :
    (∀ s ∈ publishStmts, (s.2 e).isSome = true) ↔
      ∀ n ∈ consumedDailyLengths e.response.Daily, 1 ≤ n := by
  refine ⟨fun h => ?_, publishStmts_defined e⟩
  simp only [publishStmts, List.forall_mem_cons, List.not_mem_nil, false_imp_iff,
    implies_true, and_true, Option.isSome_some, true_and, index0_isSome_iff] at h
  simp only [consumedDailyLengths, List.forall_mem_cons, List.not_mem_nil, false_imp_iff,
    implies_true, and_true]
  refine ⟨?_, h.2⟩
  have h1 := h.1
  cases hT : e.response.Daily.Time with
  | nil => rw [hT] at h1; simp [index0] at h1
  | cons t rest => simp

/-- C1: for every prior gauge state and every decoded response whose consumed daily
slices each have at least one entry, the publish step completes, the elevation gauge
holds the elevation, each of the 14 current value gauges holds its field of `Current`, and
each of the 20 daily value gauges holds the head (element 0) of its slice of `Daily`,
whatever the later entries, the lengths and the previous gauge values are. -/
theorem publish_copies_fields (vals : GaugeValues) (e : PublishEnv)
    (hN : ∀ n ∈ consumedDailyLengths e.response.Daily, 1 ≤ n) :
    ∃ vals', publish vals e = .done vals' ∧
      vals' .elevation = e.response.Elevation ∧
      vals' (.current .temperature2M) = e.response.Current.Temperature2M ∧
      vals' (.current .relativeHumidity2M) = e.response.Current.RelativeHumidity2M ∧
      vals' (.current .apparentTemperature) = e.response.Current.ApparentTemperature ∧
      vals' (.current .precipitation) = e.response.Current.Precipitation ∧
      vals' (.current .rain) = e.response.Current.Rain ∧
      vals' (.current .showers) = e.response.Current.Showers ∧
      vals' (.current .snowfall) = e.response.Current.Snowfall ∧
      vals' (.current .weatherCode) = e.response.Current.WeatherCode ∧
      vals' (.current .cloudCover) = e.response.Current.CloudCover ∧
      vals' (.current .pressureMsl) = e.response.Current.PressureMsl ∧
      vals' (.current .surfacePressure) = e.response.Current.SurfacePressure ∧
      vals' (.current .windSpeed10M) = e.response.Current.WindSpeed10M ∧
      vals' (.current .windDirection10M) = e.response.Current.WindDirection10M ∧
      vals' (.current .windGusts10m) = e.response.Current.WindGusts10m ∧
      e.response.Daily.WeatherCode.head? = some (vals' (.daily .weatherCode)) ∧
      e.response.Daily.Temperature2MMax.head? = some (vals' (.daily .temperature2MMax)) ∧
      e.response.Daily.Temperature2MMin.head? = some (vals' (.daily .temperature2MMin)) ∧
      e.response.Daily.ApparentTemperatureMax.head? = some (vals' (.daily .apparentTemperatureMax)) ∧
      e.response.Daily.ApparentTemperatureMin.head? = some (vals' (.daily .apparentTemperatureMin)) ∧
      e.response.Daily.DaylightDuraton.head? = some (vals' (.daily .daylightDuraton)) ∧
      e.response.Daily.SunshineDuration.head? = some (vals' (.daily .sunshineDuration)) ∧
      e.response.Daily.UVIndexMax.head? = some (vals' (.daily .uvIndexMax)) ∧
      e.response.Daily.UVIndexClearSkyMax.head? = some (vals' (.daily .uvIndexClearSkyMax)) ∧
      e.response.Daily.PrecipitationSum.head? = some (vals' (.daily .precipitationSum)) ∧
      e.response.Daily.RainSum.head? = some (vals' (.daily .rainSum)) ∧
      e.response.Daily.ShowersSum.head? = some (vals' (.daily .showersSum)) ∧
      e.response.Daily.SnowfallSum.head? = some (vals' (.daily .snowfallSum)) ∧
      e.response.Daily.PrecipitationHours.head? = some (vals' (.daily .precipitationHours)) ∧
      e.response.Daily.PrecipitationProbabilityMax.head? = some (vals' (.daily .precipitationProbabilityMax)) ∧
      e.response.Daily.WindSpeed10MMax.head? = some (vals' (.daily .windSpeed10MMax)) ∧
      e.response.Daily.WindGusts10MMax.head? = some (vals' (.daily .windGusts10MMax)) ∧
      e.response.Daily.WindDirection10MDominant.head? = some (vals' (.daily .windDirection10MDominant)) ∧
      e.response.Daily.ShortwaveRadiationSum.head? = some (vals' (.daily .shortwaveRadiationSum)) ∧
      e.response.Daily.ET0FAOEvapotranspiration.head? = some (vals' (.daily .et0FAOEvapotranspiration)) := by
  obtain ⟨vals', hrun, hvals⟩ :=
    runStmts_done e publishStmts vals publishStmts_nodup (publishStmts_defined e hN)
  simp only [publishStmts, List.forall_mem_cons, List.not_mem_nil, false_imp_iff,
    implies_true, and_true, Option.some.injEq, index0_eq_head?] at hvals
  obtain ⟨a1, a2, a3, a4, a5, a6, a7, a8, a9, a10, a11, a12, a13, a14, a15, a16, a17, a18, a19, a20, a21, a22, a23, a24, a25, a26, a27, a28, a29, a30, a31, a32, a33, a34, a35, a36, a37⟩ := hvals
  exact ⟨vals', hrun, a1.symm, a3.symm, a4.symm, a5.symm, a6.symm, a7.symm, a8.symm, a9.symm, a10.symm, a11.symm, a12.symm, a13.symm, a14.symm, a15.symm, a16.symm, a18, a19, a20, a21, a22, a23, a24, a25, a26, a27, a28, a29, a30, a31, a32, a33, a34, a35, a36, a37⟩

/-- C4: for every prior gauge state and every decoded response in which at least one
consumed daily slice is empty, the publish step does not complete: it panics, and every
daily gauge whose slice is empty still holds the value it had before the cycle (nothing is
written in place of the missing entry). -/
theorem publish_empty_slice_panics (vals : GaugeValues) (e : PublishEnv)
    (h0 : ∃ n ∈ consumedDailyLengths e.response.Daily, n = 0) :
    ∃ vals', publish vals e = .panicked vals' ∧
      (e.response.Daily.Time = [] →
        vals' (.daily .timeSinceUpdate) = vals (.daily .timeSinceUpdate)) ∧
      (e.response.Daily.WeatherCode = [] →
        vals' (.daily .weatherCode) = vals (.daily .weatherCode)) ∧
      (e.response.Daily.Temperature2MMax = [] →
        vals' (.daily .temperature2MMax) = vals (.daily .temperature2MMax)) ∧
      (e.response.Daily.Temperature2MMin = [] →
        vals' (.daily .temperature2MMin) = vals (.daily .temperature2MMin)) ∧
      (e.response.Daily.ApparentTemperatureMax = [] →
        vals' (.daily .apparentTemperatureMax) = vals (.daily .apparentTemperatureMax)) ∧
      (e.response.Daily.ApparentTemperatureMin = [] →
        vals' (.daily .apparentTemperatureMin) = vals (.daily .apparentTemperatureMin)) ∧
      (e.response.Daily.DaylightDuraton = [] →
        vals' (.daily .daylightDuraton) = vals (.daily .daylightDuraton)) ∧
      (e.response.Daily.SunshineDuration = [] →
        vals' (.daily .sunshineDuration) = vals (.daily .sunshineDuration)) ∧
      (e.response.Daily.UVIndexMax = [] →
        vals' (.daily .uvIndexMax) = vals (.daily .uvIndexMax)) ∧
      (e.response.Daily.UVIndexClearSkyMax = [] →
        vals' (.daily .uvIndexClearSkyMax) = vals (.daily .uvIndexClearSkyMax)) ∧
      (e.response.Daily.PrecipitationSum = [] →
        vals' (.daily .precipitationSum) = vals (.daily .precipitationSum)) ∧
      (e.response.Daily.RainSum = [] →
        vals' (.daily .rainSum) = vals (.daily .rainSum)) ∧
      (e.response.Daily.ShowersSum = [] →
        vals' (.daily .showersSum) = vals (.daily .showersSum)) ∧
      (e.response.Daily.SnowfallSum = [] →
        vals' (.daily .snowfallSum) = vals (.daily .snowfallSum)) ∧
      (e.response.Daily.PrecipitationHours = [] →
        vals' (.daily .precipitationHours) = vals (.daily .precipitationHours)) ∧
      (e.response.Daily.PrecipitationProbabilityMax = [] →
        vals' (.daily .precipitationProbabilityMax) = vals (.daily .precipitationProbabilityMax)) ∧
      (e.response.Daily.WindSpeed10MMax = [] →
        vals' (.daily .windSpeed10MMax) = vals (.daily .windSpeed10MMax)) ∧
      (e.response.Daily.WindGusts10MMax = [] →
        vals' (.daily .windGusts10MMax) = vals (.daily .windGusts10MMax)) ∧
      (e.response.Daily.WindDirection10MDominant = [] →
        vals' (.daily .windDirection10MDominant) = vals (.daily .windDirection10MDominant)) ∧
      (e.response.Daily.ShortwaveRadiationSum = [] →
        vals' (.daily .shortwaveRadiationSum) = vals (.daily .shortwaveRadiationSum)) ∧
      (e.response.Daily.ET0FAOEvapotranspiration = [] →
        vals' (.daily .et0FAOEvapotranspiration) = vals (.daily .et0FAOEvapotranspiration)) := by
  have hex : ∃ s ∈ publishStmts, s.2 e = none := by
    by_contra hcon
    have hall : ∀ s ∈ publishStmts, (s.2 e).isSome = true := by
      intro s hs
      cases hs2 : s.2 e with
      | none => exact absurd ⟨s, hs, hs2⟩ hcon
      | some v => rfl
    obtain ⟨n, hn, hn0⟩ := h0
    have := (publishStmts_defined_iff e).mp hall n hn
    omega
  obtain ⟨vals', hrun, hkeep⟩ := runStmts_panicked e publishStmts vals publishStmts_nodup hex
  simp only [publishStmts, List.forall_mem_cons, List.not_mem_nil, false_imp_iff,
    implies_true, and_true] at hkeep
  obtain ⟨a1, a2, a3, a4, a5, a6, a7, a8, a9, a10, a11, a12, a13, a14, a15, a16, a17, a18, a19, a20, a21, a22, a23, a24, a25, a26, a27, a28, a29, a30, a31, a32, a33, a34, a35, a36, a37⟩ := hkeep
  exact ⟨vals', hrun, fun h => a17 (by simp [h, index0]),
    fun h => a18 (by simp [h, index0]),
    fun h => a19 (by simp [h, index0]),
    fun h => a20 (by simp [h, index0]),
    fun h => a21 (by simp [h, index0]),
    fun h => a22 (by simp [h, index0]),
    fun h => a23 (by simp [h, index0]),
    fun h => a24 (by simp [h, index0]),
    fun h => a25 (by simp [h, index0]),
    fun h => a26 (by simp [h, index0]),
    fun h => a27 (by simp [h, index0]),
    fun h => a28 (by simp [h, index0]),
    fun h => a29 (by simp [h, index0]),
    fun h => a30 (by simp [h, index0]),
    fun h => a31 (by simp [h, index0]),
    fun h => a32 (by simp [h, index0]),
    fun h => a33 (by simp [h, index0]),
    fun h => a34 (by simp [h, index0]),
    fun h => a35 (by simp [h, index0]),
    fun h => a36 (by simp [h, index0]),
    fun h => a37 (by simp [h, index0])⟩


/-- A statement all of whose predecessors evaluate, and whose gauge no later statement
names, leaves its value in its gauge, whether or not a later statement panics. -/
theorem runStmts_written (e : PublishEnv) (pre post : List SetStmt) (g : Gauge)
    (rhs : PublishEnv → Option Float64) (v : Float64) (vals : GaugeValues)
    (hpre : ∀ s ∈ pre, (s.2 e).isSome = true) (hv : rhs e = some v)
    (hpost : g ∉ post.map Prod.fst) :
    (runStmts e (pre ++ (g, rhs) :: post) vals).vals g = v := by
  induction pre generalizing vals with
  | nil =>
    simp only [List.nil_append, runStmts, hv]
    rw [runStmts_untouched e post _ g hpost, GaugeValues.Set_same]
  | cons s rest ih =>
    obtain ⟨g0, rhs0⟩ := s
    have h0 := hpre (g0, rhs0) (List.mem_cons_self _ _)
    obtain ⟨v0, hv0⟩ := Option.isSome_iff_exists.mp h0
    replace hv0 : rhs0 e = some v0 := hv0
    simp only [List.cons_append, runStmts, hv0]
    exact ih _ (fun s hs => hpre s (List.mem_cons_of_mem _ hs))

/-- The current freshness gauge after the publish step, completed or not. -/
theorem publish_current_freshness (vals : GaugeValues) (e : PublishEnv) :
    (publish vals e).vals (.current .timeSinceUpdate)
      = time.Duration.Seconds (time.Since e.nowCurrent e.response.Current.Time) := by
  have hsplit : publishStmts = publishStmts.take 1 ++
      ((Gauge.current .timeSinceUpdate, fun e : PublishEnv =>
        some (time.Duration.Seconds (time.Since e.nowCurrent e.response.Current.Time)))
        :: publishStmts.drop 2) := rfl
  unfold publish
  rw [hsplit]
  apply runStmts_written
  · intro s hs
    simp only [publishStmts, List.take_succ_cons, List.take_zero, List.mem_singleton] at hs
    subst hs
    rfl
  · rfl
  · simp only [publishStmts, List.drop_succ_cons, List.drop_zero, List.map_cons, List.map_nil]
    decide

/-- The daily freshness gauge after the publish step, completed or not, when the slice of
days has a first entry. -/
theorem publish_daily_freshness (vals : GaugeValues) (e : PublishEnv) (D : time.Time)
    (hD : index0 e.response.Daily.Time = some D) :
    (publish vals e).vals (.daily .timeSinceUpdate)
      = time.Duration.Seconds (time.Since e.nowDaily D) := by
  have hsplit : publishStmts = publishStmts.take 16 ++
      ((Gauge.daily .timeSinceUpdate, fun e : PublishEnv =>
        (index0 e.response.Daily.Time).map
          (fun t => time.Duration.Seconds (time.Since e.nowDaily t)))
        :: publishStmts.drop 17) := rfl
  unfold publish
  rw [hsplit]
  apply runStmts_written
  · intro s hs
    simp only [publishStmts, List.take_succ_cons, List.take_zero, List.mem_cons,
      List.mem_singleton, List.not_mem_nil, or_false] at hs
    rcases hs with h | h | h | h | h | h | h | h | h | h | h | h | h | h | h | h <;>
      (subst h; rfl)
  · simp only [hD, Option.map_some']
  · simp only [publishStmts, List.drop_succ_cons, List.drop_zero, List.map_cons, List.map_nil]
    decide

/-! ## Properties of the poller -/

/-- The terminal control points. -/
theorem step_terminal (s : Poller) (ev : Event)
    (h : s.phase = .Cancelled ∨ (∃ msg, s.phase = .Fatal msg) ∨ s.phase = .Panicked
      ∨ s.phase = .Killed) :
    step s ev = s := by
  obtain ⟨phase, vals, ctxDone, sigChan, requests⟩ := s
  rcases h with h | ⟨msg, h⟩ | h | h <;> simp only at h <;> subst h <;> cases ev <;> rfl

theorem run_terminal (s : Poller) (evs : List Event)
    (h : s.phase = .Cancelled ∨ (∃ msg, s.phase = .Fatal msg) ∨ s.phase = .Panicked
      ∨ s.phase = .Killed) :
    run s evs = s := by
  induction evs with
  | nil => rfl
  | cons ev rest ih =>
    show run (step s ev) rest = s
    rw [step_terminal s ev h]
    exact ih

/-- No step of `main` makes the context done or reaches the `return` of line 103 unless
the context is done already. -/
theorem step_keeps_not_done (s : Poller) (ev : Event)
    (h : s.ctxDone = false ∧ s.phase ≠ .Cancelled) :
    (step s ev).ctxDone = false ∧ (step s ev).phase ≠ .Cancelled := by
  obtain ⟨phase, vals, ctxDone, sigChan, requests⟩ := s
  obtain ⟨hd, hp⟩ := h
  simp only at hd hp
  subst hd
  cases ev <;> cases phase <;> simp only [step] <;> (try split) <;> (try split_ifs) <;>
    simp_all

theorem run_keeps_not_done (s : Poller) (evs : List Event)
    (h : s.ctxDone = false ∧ s.phase ≠ .Cancelled) :
    (run s evs).ctxDone = false ∧ (run s evs).phase ≠ .Cancelled := by
  induction evs generalizing s with
  | nil => exact h
  | cons ev rest ih => exact ih (step s ev) (step_keeps_not_done s ev h)


/-! ## The claims -/

/-- Witness of C1 on the sample response, whose daily maximum temperatures are 22.1 and
23.0: the gauges read 12.3, 18.5 and 22.1. -/
theorem publish_copies_fields_witness :
    (∀ n ∈ consumedDailyLengths sampleEnv.response.Daily, 1 ≤ n) ∧
    ∃ vals', publish GaugeValues.initial sampleEnv = .done vals' ∧
      vals' .elevation = 123 / 10 ∧ vals' (.current .temperature2M) = 37 / 2 ∧
      vals' (.daily .temperature2MMax) = 221 / 10 := by
  have hN : ∀ n ∈ consumedDailyLengths sampleEnv.response.Daily, 1 ≤ n := by decide
  obtain ⟨vals', hrun, he, hc, -, -, -, -, -, -, -, -, -, -, -, -, -, -, hd, -⟩ :=
    publish_copies_fields GaugeValues.initial sampleEnv hN
  have hd' : some (221 / 10 : Float64) = some (vals' (.daily .temperature2MMax)) := hd
  exact ⟨hN, vals', hrun, he, hc, (Option.some.inj hd').symm⟩

/-- Witness of C4 on the sample response without its daily maximum temperatures: the
publish step panics and the gauge of the maximum temperature keeps its initial value. -/
theorem publish_empty_slice_panics_witness :
    (∃ n ∈ consumedDailyLengths sampleEnvEmpty.response.Daily, n = 0) ∧
    ∃ vals', publish GaugeValues.initial sampleEnvEmpty = .panicked vals' ∧
      vals' (.daily .temperature2MMax) = 0 := by
  have h0 : ∃ n ∈ consumedDailyLengths sampleEnvEmpty.response.Daily, n = 0 := by decide
  obtain ⟨vals', hrun, -, -, hd, -⟩ :=
    publish_empty_slice_panics GaugeValues.initial sampleEnvEmpty h0
  exact ⟨h0, vals', hrun, hd rfl⟩

/-- C2: for every latitude and longitude, the first step of `main` ends in the fatal
exit "Please specify latitude and longitude" if and only if both are zero; then no
request is ever built and no later event changes the state, and otherwise the run goes
on from the control point `Fetching`. Latitude 0 with longitude 5 starts normally. -/
theorem startup_refused_iff (latitude longitude : Float64) :
    ((step Poller.init (.flags latitude longitude)).phase
        = .Fatal "Please specify latitude and longitude" ↔ latitude = 0 ∧ longitude = 0) ∧
    (∀ evs : List Event, run Poller.init (.flags latitude longitude :: evs) =
      if latitude = 0 ∧ longitude = 0 then
        { Poller.init with phase := .Fatal "Please specify latitude and longitude" }
      else run { Poller.init with phase := .Fetching } evs) ∧
    (step Poller.init (.flags 0 5)).phase = .Fetching ∧
    (step Poller.init (.flags 0 0)).phase.exitCode = some 1 := by
  refine ⟨?_, ?_, ?_, ?_⟩
  · by_cases h : latitude = 0 ∧ longitude = 0
    · simp [step, Poller.init, h]
    · simp [step, Poller.init, h]
  · intro evs
    show run (step Poller.init (.flags latitude longitude)) evs = _
    by_cases h : latitude = 0 ∧ longitude = 0
    · rw [if_pos h]
      have hs : step Poller.init (.flags latitude longitude)
          = { Poller.init with phase := .Fatal "Please specify latitude and longitude" } := by
        simp [step, Poller.init, h]
      rw [hs]
      exact run_terminal _ evs (Or.inr (Or.inl ⟨_, rfl⟩))
    · rw [if_neg h]
      have hs : step Poller.init (.flags latitude longitude)
          = { Poller.init with phase := .Fetching } := by
        simp [step, Poller.init, h]
      rw [hs]
  · simp [step, Poller.init]
  · simp [step, Poller.init, Phase.exitCode]

/-- C3, as the code behaves: the delivery of a signal leaves the context as it is (the
signal is put in `sigChan`, from which nothing receives), in no run of `main` does the
context become done or the control point `Cancelled` get reached, and in the run that
completes one cycle and then receives an interrupt the poller keeps waiting and starts
the next cycle when the timer fires. -/
theorem signal_never_cancels :
    (∀ (s : Poller) (sig : Signal), (step s (.signal sig)).ctxDone = s.ctxDone) ∧
    (∀ evs : List Event, (run Poller.init evs).ctxDone = false ∧
      (run Poller.init evs).phase ≠ .Cancelled) ∧
    (run Poller.init [.flags 0 5, .fetched (.body sampleBodyRFC3339), .decode,
      .publish sampleNow sampleNow, .signal .Interrupt, .wake false true]).phase = .Waiting ∧
    (run Poller.init [.flags 0 5, .fetched (.body sampleBodyRFC3339), .decode,
      .publish sampleNow sampleNow, .signal .Interrupt, .wake false true]).sigChan
        = [.Interrupt] ∧
    (run Poller.init [.flags 0 5, .fetched (.body sampleBodyRFC3339), .decode,
      .publish sampleNow sampleNow, .signal .Interrupt, .wake true true]).phase
        = .Fetching := by
  refine ⟨?_, ?_, ?_, ?_, ?_⟩
  · intro s sig
    obtain ⟨phase, vals, ctxDone, sigChan, requests⟩ := s
    cases phase <;> rfl
  · intro evs
    exact run_keeps_not_done Poller.init evs ⟨rfl, by simp [Poller.init]⟩
  · rfl
  · rfl
  · rfl

/-- C5: when the request cannot be built, the transport fails or the body cannot be
decoded, the step ends in the exit of `log.Fatalf` with status 1, the gauges are as
they were before the step, and no later event changes the state: `Waiting` is not
reached and no further request is built. -/
theorem failed_cycle_is_fatal (s : Poller) (ev : Event) (h : cycleFails s ev) :
    (∃ msg, (step s ev).phase = .Fatal msg) ∧
    (step s ev).phase.exitCode = some 1 ∧
    (step s ev).vals = s.vals ∧
    ∀ evs : List Event, run (step s ev) evs = step s ev := by
  obtain ⟨phase, vals, ctxDone, sigChan, requests⟩ := s
  have key : (∃ msg, (step ⟨phase, vals, ctxDone, sigChan, requests⟩ ev).phase = .Fatal msg) ∧
      (step ⟨phase, vals, ctxDone, sigChan, requests⟩ ev).vals = vals := by
    rcases h with ⟨b, hp, hev, hd⟩ | ⟨hp, hev | hev⟩
    · simp only at hp
      subst hp; subst hev
      refine ⟨⟨"error decoding response body", ?_⟩, ?_⟩ <;> simp [step, hd]
    · simp only at hp
      subst hp; subst hev
      exact ⟨⟨_, rfl⟩, rfl⟩
    · simp only at hp
      subst hp; subst hev
      exact ⟨⟨_, rfl⟩, rfl⟩
  obtain ⟨⟨msg, hmsg⟩, hvals⟩ := key
  refine ⟨⟨msg, hmsg⟩, ?_, hvals, ?_⟩
  · rw [hmsg]; rfl
  · intro evs
    exact run_terminal _ evs (Or.inr (Or.inl ⟨msg, hmsg⟩))

/-- Witness of C5: a transport error while fetching. -/
theorem failed_cycle_is_fatal_witness :
    cycleFails sampleFetching (.fetched .transportError) ∧
    ((∃ msg, (step sampleFetching (.fetched .transportError)).phase = .Fatal msg) ∧
    (step sampleFetching (.fetched .transportError)).phase.exitCode = some 1 ∧
    (step sampleFetching (.fetched .transportError)).vals = sampleFetching.vals ∧
    ∀ evs : List Event, run (step sampleFetching (.fetched .transportError)) evs
      = step sampleFetching (.fetched .transportError)) :=
  ⟨Or.inr ⟨rfl, Or.inr rfl⟩,
    failed_cycle_is_fatal sampleFetching (.fetched .transportError) (Or.inr ⟨rfl, Or.inr rfl⟩)⟩

/-- C6, as the code behaves: `Time.UnmarshalJSON` rejects a timestamp without seconds and
zone offset, a date without a time and a timestamp with seconds but without zone (indeed
every JSON value of fewer than 21 bytes other than `null`), and accepts the RFC 3339
form; so `Decode` fails on a body with such timestamps and the step ends in the fatal
exit "error decoding response body", while a body in RFC 3339 form is decoded. -/
theorem timestamps_without_zone_rejected :
    time.Time.UnmarshalJSON 0 "\"2024-05-01T12:00\"" = none ∧
    time.Time.UnmarshalJSON 0 "\"2024-05-01\"" = none ∧
    time.Time.UnmarshalJSON 0 "\"2024-05-01T12:00:00\"" = none ∧
    (∀ (t : time.Time) (data : String), data ≠ "null" → data.length < 21 →
      time.Time.UnmarshalJSON t data = none) ∧
    time.Time.UnmarshalJSON 0 "\"2024-05-01T12:00:00Z\"" = some 63850161600000000000 ∧
    time.Time.UnmarshalJSON 0 "\"2024-05-01T12:00:00-07:00\""
      = some 63850186800000000000 ∧
    (Decode sampleBody).isNone = true ∧
    (Decode sampleBodyRFC3339).isSome = true ∧
    (step { sampleFetching with phase := .Decoding sampleBody } .decode).phase
      = .Fatal "error decoding response body" := by
  refine ⟨by decide, by decide, by decide, ?_, by decide, by decide, by rfl, by rfl, by rfl⟩
  intro t data hn hlen
  exact time.UnmarshalJSON_short t data hn hlen

/-- C7, as the code behaves: a poller that has completed the publish step of a cycle and
waits does not have a done context, whatever events came before, so a signal followed by a
try of the `select` leaves it waiting while the timer has not fired and starts the next
cycle once the timer has fired; in the run that completes one cycle, receives `SIGTERM`
during the wait and then sees the timer fire, a second request is sent and its body
awaits decoding. -/
theorem waiting_ignores_cancellation :
    (∀ (evs : List Event) (sig : Signal) (timerFired pick : Bool),
      (run Poller.init evs).phase = .Waiting →
      (step (step (run Poller.init evs) (.signal sig)) (.wake timerFired pick)).phase
        = if timerFired = true then .Fetching else .Waiting) ∧
    (run Poller.init [.flags 0 5, .fetched (.body sampleBodyRFC3339), .decode,
      .publish sampleNow sampleNow]).phase = .Waiting ∧
    (run Poller.init [.flags 0 5, .fetched (.body sampleBodyRFC3339), .decode,
      .publish sampleNow sampleNow, .signal .SIGTERM, .wake true true,
      .fetched (.body sampleBodyRFC3339)]).phase = .Decoding sampleBodyRFC3339 ∧
    (run Poller.init [.flags 0 5, .fetched (.body sampleBodyRFC3339), .decode,
      .publish sampleNow sampleNow, .signal .SIGTERM, .wake true true,
      .fetched (.body sampleBodyRFC3339)]).requests = 2 := by
  refine ⟨?_, by rfl, by rfl, by rfl⟩
  intro evs sig timerFired pick hw
  have hinv := run_keeps_not_done Poller.init evs ⟨rfl, by simp [Poller.init]⟩
  generalize run Poller.init evs = s at hw hinv
  obtain ⟨phase, vals, ctxDone, sigChan, requests⟩ := s
  obtain ⟨hd, -⟩ := hinv
  simp only at hw hd
  subst hw; subst hd
  cases timerFired <;> simp [step]

/-- Counterexample to C8: with the zero time in `current.time` (the field is absent from
the body) and the clock at 2024-05-01T12:00:00Z, the current freshness gauge holds the
seconds of `maxDuration` as a float64, 4835703278458517/524288 = 9223372036.854776,
while the difference of the two instants is 63850161600 seconds, more than 5.4*10^10
seconds away; the same holds for the daily gauge. -/
theorem freshness_zero_time_counterexample :
    (publish GaugeValues.initial sampleEnvZeroTime).vals (.current .timeSinceUpdate)
      = 4835703278458517 / 524288 ∧
    (publish GaugeValues.initial sampleEnvZeroTime).vals (.daily .timeSinceUpdate)
      = 4835703278458517 / 524288 ∧
    sampleEnvZeroTime.response.Current.Time = 0 ∧
    sampleEnvZeroTime.response.Daily.Time.head? = some 0 ∧
    (((sampleEnvZeroTime.nowCurrent - 0 : Int) : Float64) / 1000000000 = 63850161600) ∧
    (((sampleEnvZeroTime.nowDaily - 0 : Int) : Float64) / 1000000000 = 63850161600) ∧
    ((4835703278458517 / 524288 : Float64) ≠ 63850161600) ∧
    ((54000000000 : Float64) < 63850161600 - 4835703278458517 / 524288) := by
  have hclamp : time.clampDuration ((63850161600000000000 : Int) - 0) = time.maxDuration := by
    decide
  refine ⟨?_, ?_, rfl, rfl, ?_, ?_, ?_, ?_⟩
  · rw [publish_current_freshness]
    show time.Duration.Seconds (time.Time.Sub (63850161600000000000 : Int) (0 : Int)) = _
    rw [time.Sub_eq_clampDuration, hclamp, time.Seconds_maxDuration]
  · rw [publish_daily_freshness GaugeValues.initial sampleEnvZeroTime 0 rfl]
    show time.Duration.Seconds (time.Time.Sub (63850161600000000000 : Int) (0 : Int)) = _
    rw [time.Sub_eq_clampDuration, hclamp, time.Seconds_maxDuration]
  · norm_num [sampleNow, sampleEnvZeroTime]
  · norm_num [sampleNow, sampleEnvZeroTime]
  · norm_num
  · norm_num

/-- C8, amended: after the publish step (completed or not) the current freshness gauge
holds `d.Seconds()` for the nanosecond difference `d = now - T` saturated to the range of
`Duration` (`-2^63 .. 2^63-1` nanoseconds), a float64 within `2^-19` seconds of `d / 10^9`;
when the slice of days has a first entry `D` the daily freshness gauge holds the same for
`now - D`; a difference within the range of `Duration` is not changed by the
saturation, so that the gauge is then within `2^-19` seconds of the difference in
seconds. -/
theorem freshness_saturated (vals : GaugeValues) (e : PublishEnv) (D : time.Time)
    (hD : e.response.Daily.Time.head? = some D) :
    (publish vals e).vals (.current .timeSinceUpdate)
      = time.Duration.Seconds (time.clampDuration (e.nowCurrent - e.response.Current.Time)) ∧
    (publish vals e).vals (.daily .timeSinceUpdate)
      = time.Duration.Seconds (time.clampDuration (e.nowDaily - D)) ∧
    |(publish vals e).vals (.current .timeSinceUpdate)
      - (time.clampDuration (e.nowCurrent - e.response.Current.Time) : Float64) / 1000000000|
        ≤ 1 / 524288 ∧
    |(publish vals e).vals (.daily .timeSinceUpdate)
      - (time.clampDuration (e.nowDaily - D) : Float64) / 1000000000| ≤ 1 / 524288 ∧
    (time.minDuration ≤ e.nowCurrent - e.response.Current.Time ∧
        e.nowCurrent - e.response.Current.Time ≤ time.maxDuration →
      |(publish vals e).vals (.current .timeSinceUpdate)
        - ((e.nowCurrent - e.response.Current.Time : Int) : Float64) / 1000000000|
          ≤ 1 / 524288) ∧
    (time.minDuration ≤ e.nowDaily - D ∧ e.nowDaily - D ≤ time.maxDuration →
      |(publish vals e).vals (.daily .timeSinceUpdate)
        - ((e.nowDaily - D : Int) : Float64) / 1000000000| ≤ 1 / 524288) := by
  rw [← index0_eq_head?] at hD
  rw [publish_current_freshness, publish_daily_freshness vals e D hD]
  unfold time.Since
  rw [time.Sub_eq_clampDuration, time.Sub_eq_clampDuration]
  refine ⟨rfl, rfl, time.Seconds_near _ (time.clampDuration_range _),
    time.Seconds_near _ (time.clampDuration_range _), ?_, ?_⟩
  · intro h
    rw [time.clampDuration_of_range _ h]
    exact time.Seconds_near _ h
  · intro h
    rw [time.clampDuration_of_range _ h]
    exact time.Seconds_near _ h

/-- Witness of C8, amended: on the sample response, observed 90 seconds after
`current.time` and 12 hours after `daily.time[0]`, the freshness gauges hold 90 and
43200. -/
theorem freshness_saturated_witness :
    sampleEnv.response.Daily.Time.head? = some (sampleNow - 90000000000) ∧
    (publish GaugeValues.initial sampleEnv).vals (.current .timeSinceUpdate) = 90 ∧
    (publish GaugeValues.initial sampleEnv).vals (.daily .timeSinceUpdate) = 43200 := by
  obtain ⟨hc, hd, -, -, -, -⟩ := freshness_saturated GaugeValues.initial sampleEnv
    (sampleNow - 90000000000) rfl
  have h1 : time.clampDuration (sampleEnv.nowCurrent - sampleEnv.response.Current.Time)
      = 90 * 1000000000 := by decide
  have h2 : time.clampDuration (sampleEnv.nowDaily - (sampleNow - 90000000000))
      = 43200 * 1000000000 := by decide
  refine ⟨rfl, ?_, ?_⟩
  · rw [hc, h1, time.Seconds_whole 90 (by norm_num)]
    norm_num
  · rw [hd, h2, time.Seconds_whole 43200 (by norm_num)]
    norm_num

/-- Counterexample to C9: `init` registers 39 gauges, among them `daily_sunrise` and
`daily_sunset`, which are not among the 37 names of the elevation gauge, the gauges of
the float fields and the two freshness gauges. -/
theorem registered_sunrise_counterexample :
    registered.length = 39 ∧ floatGaugeNames.length = 37 ∧
    (metrics (.daily .sunrise)).Name = "daily_sunrise" ∧
    (metrics (.daily .sunset)).Name = "daily_sunset" ∧
    Gauge.daily .sunrise ∈ registered ∧ Gauge.daily .sunset ∈ registered ∧
    "daily_sunrise" ∈ registeredNames ∧ "daily_sunset" ∈ registeredNames ∧
    "daily_sunrise" ∉ floatGaugeNames ∧ "daily_sunset" ∉ floatGaugeNames := by
  decide

/-- C9, amended: the gauges created and registered at startup are all the gauges of
`metrics`, each once: the elevation gauge, the two freshness gauges, and one gauge per
JSON key other than `time` of the current group (named `current_` and the key) and of the
daily group (named `daily_` and the key), the timestamp-typed `sunrise` and `sunset`
included; these are 39 gauges in namespace `openmeteo` with pairwise distinct names,
the 37 of the float fields, elevation and freshness together with `daily_sunrise` and
`daily_sunset`, and the publish step writes all of them except those two. -/
theorem registered_gauges :
    registeredNames = variableGaugeNames ∧
    registeredNames.Perm (floatGaugeNames ++ ["daily_sunrise", "daily_sunset"]) ∧
    registered.length = 39 ∧ registeredNames.Nodup ∧ registered.Nodup ∧
    (∀ g : Gauge, g ∈ registered) ∧
    (∀ g : Gauge, (metrics g).Namespace = "openmeteo") ∧
    (∀ g : Gauge, g ∈ publishStmts.map Prod.fst ↔
      g ≠ .daily .sunrise ∧ g ≠ .daily .sunset) := by
  refine ⟨by decide, by decide, by decide, by decide, by decide, ?_, ?_, ?_⟩
  · intro g
    cases g with
    | elevation => decide
    | current f => cases f <;> decide
    | daily f => cases f <;> decide
  · intro g
    cases g with
    | elevation => rfl
    | current f => cases f <;> rfl
    | daily f => cases f <;> rfl
  · intro g
    simp only [publishStmts, List.map_cons, List.map_nil]
    cases g with
    | elevation => decide
    | current f => cases f <;> decide
    | daily f => cases f <;> decide

set_option maxRecDepth 100000 in
/-- C10, as the code behaves: the variable `is_day` is requested in the `current=` list of
the URL and has no field in the current group of the response model; apart from it the
requested current variables are, in order, the JSON keys of the current group other than
`time`, and the requested daily variables are, in order, the JSON keys of the daily group
other than `time`. -/
theorem requested_is_day_not_decoded :
    "is_day" ∈ urlCurrent ∧ "is_day" ∉ currentFields.map Prod.fst ∧
    urlCurrent.filter (fun v => v ≠ "is_day") = variableKeys currentFields ∧
    urlDaily = variableKeys dailyFields ∧
    urlCurrent.length = 15 ∧ (variableKeys currentFields).length = 14 ∧
    urlDaily.length = 22 := by
  decide


end OpenMeteo
